import Mathlib

/-!
# lora-modem: `src/lrw.c`

A shallow embedding of the session layer in `lrw.c` (persistence of the seven
NVM groups, the join state machine, the region switch) and theorems about it.

Conventions of the embedding:

* memory is a list of bytes (`Nat`, each below 256); multi-byte fields are
  little endian, as on the Cortex-M0+ target;
* the static variables of `lrw.c` and the memory it shares with its
  collaborators form the record `World`; every function of `lrw.c` is a
  function on `World`;
* every call into a collaborator (MAC engine, flash partitions, timer server,
  console) is appended to `World.trace`; what the collaborator answers is read
  from the record `Env`;
* sizes and field offsets of the engine's structures come from LoRaMac-node's
  headers, which are not part of `lrw.c`; they are the parameter `Layout`.
-/

namespace Lrw

/-! ## Bytes -/

abbrev Bytes := List Nat

/-- The result of `memset(p, 0, n)`: `n` zero bytes. -/
def zeros (n : Nat) : Bytes := List.replicate n 0

/-- Little-endian value of a byte string. -/
def le_decode : Bytes → Nat
  | [] => 0
  | b :: bs => b + 256 * le_decode bs

/-- The `n` little-endian bytes of `v` (truncating, as a C store does). -/
def le_encode : Nat → Nat → Bytes
  | 0, _ => []
  | n + 1, v => v % 256 :: le_encode n (v / 256)

/-- The `sz` bytes of a structure at offset `off`. -/
def read_field (g : Bytes) (off sz : Nat) : Bytes := (g.drop off).take sz

/-- Store `v` over the bytes of a structure starting at offset `off`. -/
def write_field (g : Bytes) (off : Nat) (v : Bytes) : Bytes :=
  g.take off ++ v ++ g.drop (off + v.length)

/-! ## The engine's data (LoRaMac-node headers) -/

/-- The seven members of `LoRaMacNvmData_t`. -/
inductive Group
  | Crypto | MacGroup1 | MacGroup2 | SecureElement | RegionGroup1 | RegionGroup2 | ClassB
  deriving DecidableEq, Repr

/-- The in-memory state block `LoRaMacNvmData_t`, one byte string per group. -/
structure LoRaMacNvmData_t where
  Crypto : Bytes
  MacGroup1 : Bytes
  MacGroup2 : Bytes
  SecureElement : Bytes
  RegionGroup1 : Bytes
  RegionGroup2 : Bytes
  ClassB : Bytes
  deriving DecidableEq, Repr

/-- Member access by group. -/
def LoRaMacNvmData_t.group (s : LoRaMacNvmData_t) : Group → Bytes
  | .Crypto => s.Crypto
  | .MacGroup1 => s.MacGroup1
  | .MacGroup2 => s.MacGroup2
  | .SecureElement => s.SecureElement
  | .RegionGroup1 => s.RegionGroup1
  | .RegionGroup2 => s.RegionGroup2
  | .ClassB => s.ClassB

/-- What `sizeof` and `offsetof` give for the engine's structures, and the
compile-time settings of the firmware. -/
structure Layout where
  szCrypto : Nat
  szMacGroup1 : Nat
  szMacGroup2 : Nat
  szSecureElement : Nat
  szRegionGroup1 : Nat
  szRegionGroup2 : Nat
  szClassB : Nat
  /-- Offset of `Crypto.DevNonce` (a `uint16_t`). -/
  offDevNonce : Nat
  /-- Offset and size of `MacGroup2.Region` (a `LoRaMacRegion_t`). -/
  offRegion : Nat
  szRegion : Nat
  /-- Offset of `SecureElement.DevEui` (`SE_EUI_SIZE` = 8 bytes). -/
  offDevEui : Nat
  /-- Bits of `system_sleep_lock` (system.h). -/
  SYSTEM_MODULE_LORA : Nat
  SYSTEM_MODULE_NVM : Nat
  /-- Whether the firmware is built with `RESTORE_CHMASK_AFTER_JOIN`. -/
  RESTORE_CHMASK_AFTER_JOIN : Bool
  /-- The value of `LORAMAC_ABP_VERSION`, if the firmware is built with it. -/
  LORAMAC_ABP_VERSION : Option Nat
  /-- Whether the radio driver provides `Radio.IrqProcess`. -/
  Radio_IrqProcess : Bool
  /-- The `sizeof` of the union `MibParam_t`. -/
  szMibParam : Nat
  /-- The region name `DEFAULT_ACTIVE_REGION` of the build, `none` for `NULL`. -/
  DEFAULT_ACTIVE_REGION : Option String

/-- The `sizeof` of a group. -/
def Layout.sizeof (L : Layout) : Group → Nat
  | .Crypto => L.szCrypto
  | .MacGroup1 => L.szMacGroup1
  | .MacGroup2 => L.szMacGroup2
  | .SecureElement => L.szSecureElement
  | .RegionGroup1 => L.szRegionGroup1
  | .RegionGroup2 => L.szRegionGroup2
  | .ClassB => L.szClassB

/-- Every group of the block has the size its type has. -/
def LoRaMacNvmData_t.WF (L : Layout) (s : LoRaMacNvmData_t) : Prop :=
  ∀ g : Group, (s.group g).length = L.sizeof g

/-- The notify flags `LORAMAC_NVM_NOTIFY_FLAG_*` of LoRaMac.h. -/
def LORAMAC_NVM_NOTIFY_FLAG_NONE : Nat := 0x00
def LORAMAC_NVM_NOTIFY_FLAG_CRYPTO : Nat := 0x01
def LORAMAC_NVM_NOTIFY_FLAG_MAC_GROUP1 : Nat := 0x02
def LORAMAC_NVM_NOTIFY_FLAG_MAC_GROUP2 : Nat := 0x04
def LORAMAC_NVM_NOTIFY_FLAG_SECURE_ELEMENT : Nat := 0x08
def LORAMAC_NVM_NOTIFY_FLAG_REGION_GROUP1 : Nat := 0x10
def LORAMAC_NVM_NOTIFY_FLAG_REGION_GROUP2 : Nat := 0x20
def LORAMAC_NVM_NOTIFY_FLAG_CLASS_B : Nat := 0x40

/-- Bit position of a group in the dirty-flag set. -/
def Group.bit : Group → Nat
  | .Crypto => 0
  | .MacGroup1 => 1
  | .MacGroup2 => 2
  | .SecureElement => 3
  | .RegionGroup1 => 4
  | .RegionGroup2 => 5
  | .ClassB => 6

/-- The name of a group in the log messages. -/
def Group.name : Group → String
  | .Crypto => "Crypto"
  | .MacGroup1 => "MacGroup1"
  | .MacGroup2 => "MacGroup2"
  | .SecureElement => "SecureElement"
  | .RegionGroup1 => "RegionGroup1"
  | .RegionGroup2 => "RegionGroup2"
  | .ClassB => "ClassB"

/-- The notify flag of a group. -/
def Group.flag : Group → Nat
  | .Crypto => LORAMAC_NVM_NOTIFY_FLAG_CRYPTO
  | .MacGroup1 => LORAMAC_NVM_NOTIFY_FLAG_MAC_GROUP1
  | .MacGroup2 => LORAMAC_NVM_NOTIFY_FLAG_MAC_GROUP2
  | .SecureElement => LORAMAC_NVM_NOTIFY_FLAG_SECURE_ELEMENT
  | .RegionGroup1 => LORAMAC_NVM_NOTIFY_FLAG_REGION_GROUP1
  | .RegionGroup2 => LORAMAC_NVM_NOTIFY_FLAG_REGION_GROUP2
  | .ClassB => LORAMAC_NVM_NOTIFY_FLAG_CLASS_B

/-- The type `LoRaMacStatus_t` of LoRaMac.h, as the `int` the functions of
`lrw.c` return. -/
abbrev LoRaMacStatus_t := Int

def LORAMAC_STATUS_OK : LoRaMacStatus_t := 0
def LORAMAC_STATUS_BUSY : LoRaMacStatus_t := 1
def LORAMAC_STATUS_PARAMETER_INVALID : LoRaMacStatus_t := 3
def LORAMAC_STATUS_LENGTH_ERROR : LoRaMacStatus_t := 8
def LORAMAC_STATUS_REGION_NOT_SUPPORTED : LoRaMacStatus_t := 9
def LORAMAC_STATUS_DUTYCYCLE_RESTRICTED : LoRaMacStatus_t := 11

/-- The type `LoRaMacEventInfoStatus_t` of LoRaMac.h: the values `lrw.c` tests,
and the others. -/
inductive LoRaMacEventInfoStatus_t
  | LORAMAC_EVENT_INFO_STATUS_OK
  | LORAMAC_EVENT_INFO_STATUS_TX_TIMEOUT
  | LORAMAC_EVENT_INFO_STATUS_RX2_TIMEOUT
  | other (code : Nat)
  deriving DecidableEq, Repr

/-- The type `ActivationType_t` of LoRaMac.h. -/
inductive ActivationType_t
  | ACTIVATION_TYPE_NONE | ACTIVATION_TYPE_ABP | ACTIVATION_TYPE_OTAA
  deriving DecidableEq, Repr

/-- The type `Mlme_t` of LoRaMac.h: the requests `lrw.c` dispatches on, and the
others. -/
inductive Mlme_t
  | MLME_JOIN | MLME_LINK_CHECK | MLME_TXCW | other (code : Nat)
  deriving DecidableEq, Repr

/-- The fields of `MlmeConfirm_t` that `lrw.c` reads. -/
structure MlmeConfirm_t where
  MlmeRequest : Mlme_t
  Status : LoRaMacEventInfoStatus_t
  DemodMargin : Nat
  NbGateways : Nat
  deriving DecidableEq, Repr

/-- The request `MlmeReq_t` as `lrw.c` fills it. -/
inductive MlmeReq_t
  | Join (NetworkActivation : ActivationType_t) (Datarate : Nat)
  | LinkCheck
  deriving DecidableEq, Repr

/-- The data rate `DR_0` of the regional parameters. -/
def DR_0 : Nat := 0

/-- The keys of `MibRequestConfirm_t` that this part of `lrw.c` reads. -/
inductive Mib_t
  | MIB_NVM_CTXS | MIB_DEVICE_CLASS | MIB_NETWORK_ACTIVATION | MIB_CHANNELS_DEFAULT_MASK
  | MIB_DEV_EUI | MIB_ADR | MIB_PUBLIC_NETWORK | MIB_LORAWAN_VERSION | MIB_NET_ID
  | MIB_DEV_ADDR | MIB_CHANNELS_DATARATE
  deriving DecidableEq, Repr

/-- A request `MibRequestConfirm_t` passed to `LoRaMacMibSetRequestConfirm`: key and
parameter. -/
inductive MibSet_t
  | MIB_NVM_CTXS (Contexts : LoRaMacNvmData_t)
  | MIB_DEVICE_CLASS (Class : Nat)
  | MIB_CHANNELS_DEFAULT_MASK (ChannelsDefaultMask : List Nat)
  | MIB_CHANNELS_MASK (ChannelsMask : List Nat)
  | MIB_ABP_LORAWAN_VERSION (Value : Nat)
  | MIB_JOIN_EUI (JoinEui : Bytes)
  | MIB_ADR (AdrEnable : Nat)
  | MIB_CHANNELS_TX_POWER (ChannelsTxPower : Nat)
  | MIB_NETWORK_ACTIVATION (NetworkActivation : ActivationType_t)
  | MIB_IS_CERT_FPORT_ON (IsCertPortOn : Bool)
  | MIB_SYSTEM_MAX_RX_ERROR (SystemMaxRxError : Nat)
  | MIB_DEV_EUI (DevEui : Bytes)
  | MIB_DEV_ADDR (DevAddr : Nat)
  | MIB_CHANNELS_NB_TRANS (ChannelsNbTrans : Nat)
  deriving DecidableEq, Repr

/-- The request types of `McpsReq_t` used here; `MCPS_UNCONFIRMED` is 0. -/
inductive Mcps_t
  | MCPS_UNCONFIRMED | MCPS_CONFIRMED
  deriving DecidableEq, Repr

/-- The request `McpsReq_t`: its type and the members `fPort`, `fBuffer`
(`none` for `NULL`), `fBufferSize` and `Datarate` (an `int8_t`) of
`Req.Unconfirmed` or `Req.Confirmed`. -/
structure McpsReq_t where
  type : Mcps_t
  fPort : Nat
  fBuffer : Option Bytes
  fBufferSize : Nat
  Datarate : Int
  deriving DecidableEq, Repr

/-! ## Console notifications (cmd.h) -/

/-- The event classes of `cmd_event` used here. -/
inductive cmd_event_t
  | CMD_EVENT_JOIN | CMD_EVENT_NETWORK | CMD_EVENT_CW
  deriving DecidableEq, Repr

/-- The event codes of `cmd_event` used here. -/
inductive cmd_code_t
  | CMD_JOIN_FAILED | CMD_JOIN_SUCCEEDED
  | CMD_NET_RETRANSMISSION | CMD_NET_ANSWER | CMD_NET_NOANSWER
  | CMD_CW_END
  deriving DecidableEq, Repr

/-! ## Collaborator calls -/

/-- A call that `lrw.c` makes into a collaborator, with its arguments. -/
inductive Call
  /-- The call `part_write(&nvm_parts.<g>, offset, data, len)`. -/
  | part_write (part : Group) (offset : Nat) (data : Bytes) (len : Nat)
  | log_error (what : String)
  | LoRaMacMibGetRequestConfirm (type : Mib_t)
  | LoRaMacMibSetRequestConfirm (r : MibSet_t)
  | LoRaMacMlmeRequest (req : MlmeReq_t)
  | LoRaMacDeInitialization
  | LoRaMacCryptoInit
  | LoRaMacInitialization (region : Nat)
  | LoRaMacQueryTxPossible (size : Nat)
  | LoRaMacMcpsRequest (req : McpsReq_t)
  | TimerInit
  | system_get_unique_id
  | halt (msg : String)
  | RegionIsActive (region : Nat)
  | LoRaMacProcess
  | Radio_IrqProcess
  | TimerSetValue (delay : Nat)
  | TimerStart
  | TimerStop
  | cmd_event (kind : cmd_event_t) (code : cmd_code_t)
  | cmd_ans (margin : Nat) (gateways : Nat)
  /-- Entry into `sync_device_class` (a marker, not a collaborator call). -/
  | sync_device_class
  /-- An interrupt in which the engine calls `state_changed(flags)` (a marker,
  not a collaborator call). -/
  | irq_state_changed (flags : Nat)
  deriving DecidableEq, Repr

/-- The flash partitions `nvm_parts` (nvm.h): the bytes of each partition, or
`none` where `part_mmap` returns `NULL`. -/
structure NvmParts where
  crypto : Option Bytes
  mac1 : Option Bytes
  mac2 : Option Bytes
  se : Option Bytes
  region1 : Option Bytes
  region2 : Option Bytes
  classb : Option Bytes
  deriving DecidableEq, Repr

/-- The partition that holds a group. -/
def NvmParts.part (p : NvmParts) : Group → Option Bytes
  | .Crypto => p.crypto
  | .MacGroup1 => p.mac1
  | .MacGroup2 => p.mac2
  | .SecureElement => p.se
  | .RegionGroup1 => p.region1
  | .RegionGroup2 => p.region2
  | .ClassB => p.classb

/-- Replace the partition that holds a group. -/
def NvmParts.setPart (p : NvmParts) (g : Group) (d : Option Bytes) : NvmParts :=
  match g with
  | .Crypto => { p with crypto := d }
  | .MacGroup1 => { p with mac1 := d }
  | .MacGroup2 => { p with mac2 := d }
  | .SecureElement => { p with se := d }
  | .RegionGroup1 => { p with region1 := d }
  | .RegionGroup2 => { p with region2 := d }
  | .ClassB => { p with classb := d }

/-- Modelled from the spec: `part_mmap` of part.c (not under src/), the flash
store's `map(partition) -> (pointer, size) | absent`. -/
def part_mmap (p : Option Bytes) : Option (Bytes × Nat) :=
  p.map fun d => (d, d.length)

/-- Modelled from the spec: `part_write` of part.c (not under src/), the flash
store's `write(partition, offset, buffer, length) -> success`. The outcome of
the flash driver is the input `ok`; a write to an absent partition or beyond
its end fails. A successful write stores the `len` bytes at `offset`; a failed
write is taken to store nothing. -/
def part_write (ok : Bool) (p : Option Bytes) (offset : Nat) (buf : Bytes) (len : Nat) :
    Bool × Option Bytes :=
  match p with
  | none => (false, none)
  | some d =>
    if ok && decide (offset + len ≤ d.length) then
      (true, some (d.take offset ++ buf.take len ++ d.drop (offset + len)))
    else
      (false, some d)

/-! ## State and environment -/

/-- The static variables of `lrw.c`, the memory it shares with its
collaborators, and the calls made so far. -/
structure World where
  /-- The dirty-flag set `nvm_flags` (nvm.h), a `uint16_t`. -/
  nvm_flags : Nat
  system_sleep_lock : Nat
  events : Nat
  joins_left : Int
  /-- The field `tx_params.Status`. -/
  tx_params_Status : LoRaMacEventInfoStatus_t
  /-- The array `saved_chmask`. -/
  saved_chmask : List Nat
  /-- The array `dev_eui`. -/
  dev_eui : Bytes
  /-- The engine's contexts, which `lrw_get_state` points to. -/
  Nvm : LoRaMacNvmData_t
  nvm_parts : NvmParts
  trace : List Call
  deriving DecidableEq, Repr

/-- What the collaborators answer during one entry into `lrw.c`. -/
structure Env where
  LoRaMacIsBusy : Bool
  /-- Outcome of the flash driver for a `part_write`. -/
  flash_ok : Bool
  /-- Value the engine holds under `MIB_NETWORK_ACTIVATION`. -/
  NetworkActivation : ActivationType_t
  /-- Status and value of a get of `MIB_DEVICE_CLASS`. -/
  class_get_rc : LoRaMacStatus_t
  Class : Nat
  /-- Status of a set of `MIB_DEVICE_CLASS`. -/
  class_set_rc : LoRaMacStatus_t
  /-- Status of the set of `MIB_NVM_CTXS`. -/
  ctxs_set_rc : LoRaMacStatus_t
  /-- Value the engine holds under `MIB_CHANNELS_DEFAULT_MASK`. -/
  ChannelsDefaultMask : List Nat
  /-- Status `LoRaMacMlmeRequest` returns. -/
  LoRaMacMlmeRequest : LoRaMacStatus_t
  /-- Status `LoRaMacDeInitialization` returns. -/
  LoRaMacDeInitialization : LoRaMacStatus_t
  RegionIsActive : Nat → Bool
  /-- The contents `LoRaMacCryptoInit` gives the Crypto group. -/
  LoRaMacCryptoInit : Bytes → Bytes
  randr : Nat → Nat → Nat
  /-- The setting `sysconf.device_class`. -/
  sysconf_device_class : Nat
  /-- The settings `sysconf.confirmed_retransmissions` and
  `sysconf.unconfirmed_retransmissions`. -/
  sysconf_confirmed_retransmissions : Nat
  sysconf_unconfirmed_retransmissions : Nat
  /-- Status `LoRaMacInitialization` returns. -/
  LoRaMacInitialization : LoRaMacStatus_t
  /-- The identifier `system_get_unique_id` writes over the buffer it is given. -/
  system_get_unique_id : Bytes → Bytes
  /-- Status of the set of `MIB_DEV_EUI`. -/
  dev_eui_set_rc : LoRaMacStatus_t
  /-- Value the engine holds under `MIB_DEV_ADDR`, and status of its set. -/
  DevAddr : Nat
  dev_addr_set_rc : LoRaMacStatus_t
  /-- Value the engine holds under `MIB_CHANNELS_DATARATE` (an `int8_t`). -/
  ChannelsDatarate : Int
  /-- Status `LoRaMacQueryTxPossible` returns for a payload size. -/
  LoRaMacQueryTxPossible : Nat → LoRaMacStatus_t
  /-- Status of a set of `MIB_CHANNELS_NB_TRANS`. -/
  nb_trans_set_rc : LoRaMacStatus_t
  /-- Status `LoRaMacMcpsRequest` returns. -/
  LoRaMacMcpsRequest : LoRaMacStatus_t

/-- Record a call. -/
def World.call (w : World) (c : Call) : World := { w with trace := w.trace ++ [c] }

/-- The assignment `x &= ~m` on a 32-bit `unsigned`. -/
def and_not32 (x m : Nat) : Nat := x &&& (0xFFFFFFFF ^^^ m)

/-- The assignment `x &= ~m` on a `uint16_t`: `~m` is an `int`, the result is
truncated. -/
def and_not16 (x m : Nat) : Nat := (x &&& (0xFFFFFFFF ^^^ m)) % 2 ^ 16

/-! ## Checksums -/

/-- One step of the bitwise CRC loop:
`crc = (crc >> 1) ^ (reversedPolynom & ~((crc & 0x01) - 1))`. -/
def crc32_step (crc : Nat) : Nat :=
  (crc >>> 1) ^^^ (if crc % 2 = 1 then 0xEDB88320 else 0)

/-- Modelled from the spec: the `crc32` primitive, `Crc32` of LoRaMac-node's
utilities.c (not under src/): the reflected CRC-32 with polynomial 0xEDB88320,
initial value 0xFFFFFFFF and final complement. -/
def Crc32 (buffer : Bytes) : Nat :=
  (buffer.foldl (fun crc b => crc32_step^[8] (crc ^^^ b)) 0xFFFFFFFF) ^^^ 0xFFFFFFFF

/-- The 4-byte trailer `Crc32` of a group of `size` bytes. -/
def trailer (p : Bytes) (size : Nat) : Nat := le_decode (read_field p (size - 4) 4)

/-- Modelled from the spec: `check_block_crc` of utils.c (not under src/),
`whole_block_ok(block) := crc32(block[0:end-4]) == block.trailer`. -/
def check_block_crc (p : Bytes) (size : Nat) : Bool :=
  Crc32 (p.take (size - 4)) == trailer p size

/-- Modelled from the spec: `update_block_crc` of utils.c (not under src/): it
stores the whole-block checksum `crc32(block[0:end-4])` in the trailer. -/
def update_block_crc (p : Bytes) (size : Nat) : Bytes :=
  write_field p (size - 4) (le_encode 4 (Crc32 (p.take (size - 4))))

/-! ## Persistence: `lrw_get_state`, `save_state`, `restore_state`, `state_changed` -/

/-- The accessor `lrw_get_state`: asks the engine for `MIB_NVM_CTXS` and returns
the pointer to its contexts. -/
def lrw_get_state (w : World) : LoRaMacNvmData_t × World :=
  (w.Nvm, w.call (.LoRaMacMibGetRequestConfirm .MIB_NVM_CTXS))

/-- One `if (nvm_flags & FLAG) { ... return; }` block of `save_state`, entered
with the flag of `g` set: return at once when the engine is busy, else write
the group to its partition, log a failure, clear the flag. -/
def save_group (L : Layout) (e : Env) (s : LoRaMacNvmData_t) (g : Group) (w : World) : World :=
  if e.LoRaMacIsBusy then w
  else
    let w := w.call (.part_write g 0 (s.group g) (L.sizeof g))
    let r := part_write e.flash_ok (w.nvm_parts.part g) 0 (s.group g) (L.sizeof g)
    let w := { w with nvm_parts := w.nvm_parts.setPart g r.2 }
    let w := if !r.1 then w.call (.log_error ("Error while writing " ++ g.name ++ " state to NVM"))
      else w
    { w with nvm_flags := and_not16 w.nvm_flags g.flag }

/-- The function `save_state` of `lrw.c`. -/
def save_state (L : Layout) (e : Env) (w : World) : World :=
  if w.nvm_flags = LORAMAC_NVM_NOTIFY_FLAG_NONE then
    { w with system_sleep_lock := and_not32 w.system_sleep_lock L.SYSTEM_MODULE_NVM }
  else
    let w := { w with system_sleep_lock := w.system_sleep_lock ||| L.SYSTEM_MODULE_NVM }
    let (s, w) := lrw_get_state w
    if w.nvm_flags &&& LORAMAC_NVM_NOTIFY_FLAG_CRYPTO ≠ 0 then
      save_group L e s .Crypto w
    else if w.nvm_flags &&& LORAMAC_NVM_NOTIFY_FLAG_MAC_GROUP1 ≠ 0 then
      save_group L e s .MacGroup1 w
    else if w.nvm_flags &&& LORAMAC_NVM_NOTIFY_FLAG_MAC_GROUP2 ≠ 0 then
      save_group L e s .MacGroup2 w
    else if w.nvm_flags &&& LORAMAC_NVM_NOTIFY_FLAG_SECURE_ELEMENT ≠ 0 then
      save_group L e s .SecureElement w
    else if w.nvm_flags &&& LORAMAC_NVM_NOTIFY_FLAG_REGION_GROUP1 ≠ 0 then
      save_group L e s .RegionGroup1 w
    else if w.nvm_flags &&& LORAMAC_NVM_NOTIFY_FLAG_REGION_GROUP2 ≠ 0 then
      save_group L e s .RegionGroup2 w
    else if w.nvm_flags &&& LORAMAC_NVM_NOTIFY_FLAG_CLASS_B ≠ 0 then
      save_group L e s .ClassB w
    else w

/-- One group of `restore_state`: the member was zeroed by the `memset`; it
receives the first `sz` bytes of its partition if the partition is mapped and
`size >= sz`. -/
def restore_group (sz : Nat) (part : Option Bytes) : Bytes :=
  match part_mmap part with
  | some (p, size) => if size ≥ sz then p.take sz else zeros sz
  | none => zeros sz

/-- The local block `s` that `restore_state` assembles. -/
def restore_block (L : Layout) (parts : NvmParts) : LoRaMacNvmData_t :=
  { Crypto := restore_group L.szCrypto parts.crypto
    MacGroup1 := restore_group L.szMacGroup1 parts.mac1
    MacGroup2 := restore_group L.szMacGroup2 parts.mac2
    SecureElement := restore_group L.szSecureElement parts.se
    RegionGroup1 := restore_group L.szRegionGroup1 parts.region1
    RegionGroup2 := restore_group L.szRegionGroup2 parts.region2
    ClassB := restore_group L.szClassB parts.classb }

/-- The function `restore_state` of `lrw.c`: the block is handed to the engine
in one set of `MIB_NVM_CTXS`; a failure is logged. What the engine then does
with the block is not part of `lrw.c`. -/
def restore_state (L : Layout) (e : Env) (w : World) : World :=
  let s := restore_block L w.nvm_parts
  let w := w.call (.LoRaMacMibSetRequestConfirm (.MIB_NVM_CTXS s))
  if e.ctxs_set_rc ≠ LORAMAC_STATUS_OK then
    w.call (.log_error "LoRaMac: Error while restoring NVM state")
  else w

/-- The function `state_changed` of `lrw.c`: `nvm_flags |= flags`. -/
def state_changed (flags : Nat) (w : World) : World :=
  { w with nvm_flags := w.nvm_flags ||| flags }

/-! ## Reference for `save_state`, in the words of the specification -/

/-- The fixed priority order of the groups. -/
def priority : List Group :=
  [.Crypto, .MacGroup1, .MacGroup2, .SecureElement, .RegionGroup1, .RegionGroup2, .ClassB]

/-- The first group, in priority order, whose flag is set. -/
def first_dirty (flags : Nat) : Option Group :=
  priority.find? fun g => flags.testBit g.bit

/-- The `part_write` calls of a trace. -/
def part_writes (t : List Call) : List Call :=
  t.filter fun c => match c with
    | .part_write _ _ _ _ => true
    | _ => false

/-! ## Join: `lrw_join` and the confirm handlers -/

/-- The members of `enum lora_event`. -/
def NO_EVENT : Nat := 0
def RETRANSMIT_JOIN : Nat := 1

/-- The function `process_notify` of `lrw.c`. -/
def process_notify (L : Layout) (w : World) : World :=
  { w with system_sleep_lock := w.system_sleep_lock ||| L.SYSTEM_MODULE_LORA }

/-- The function `sync_device_class` of `lrw.c`. -/
def sync_device_class (e : Env) (w : World) : LoRaMacStatus_t × World :=
  let w := w.call .sync_device_class
  let w := w.call (.LoRaMacMibGetRequestConfirm .MIB_DEVICE_CLASS)
  if e.class_get_rc ≠ LORAMAC_STATUS_OK then (e.class_get_rc, w)
  else if e.Class = e.sysconf_device_class then (LORAMAC_STATUS_OK, w)
  else
    (e.class_set_rc,
      w.call (.LoRaMacMibSetRequestConfirm (.MIB_DEVICE_CLASS e.sysconf_device_class)))

/-- The function `set_abp_mac_version` of `lrw.c` (built with
`LORAMAC_ABP_VERSION` = `v`). -/
def set_abp_mac_version (v : Nat) (w : World) : World :=
  w.call (.LoRaMacMibSetRequestConfirm (.MIB_ABP_LORAWAN_VERSION v))

/-- The function `save_chmask` of `lrw.c`. -/
def save_chmask (e : Env) (w : World) : World :=
  let w := w.call (.LoRaMacMibGetRequestConfirm .MIB_CHANNELS_DEFAULT_MASK)
  { w with saved_chmask := e.ChannelsDefaultMask }

/-- The function `restore_chmask` of `lrw.c`. -/
def restore_chmask (w : World) : World :=
  let w := w.call (.LoRaMacMibSetRequestConfirm (.MIB_CHANNELS_DEFAULT_MASK w.saved_chmask))
  w.call (.LoRaMacMibSetRequestConfirm (.MIB_CHANNELS_MASK w.saved_chmask))

/-- The function `linkcheck_callback` of `lrw.c`. -/
def linkcheck_callback (param : MlmeConfirm_t) (w : World) : World :=
  if param.Status = .LORAMAC_EVENT_INFO_STATUS_OK then
    let w := w.call (.cmd_event .CMD_EVENT_NETWORK .CMD_NET_ANSWER)
    w.call (.cmd_ans param.DemodMargin param.NbGateways)
  else
    w.call (.cmd_event .CMD_EVENT_NETWORK .CMD_NET_NOANSWER)

/-- The function `join_callback_abp` of `lrw.c`. -/
def join_callback_abp (L : Layout) (e : Env) (param : MlmeConfirm_t) (w : World) : World :=
  let w := match L.LORAMAC_ABP_VERSION with
    | some v =>
      if param.Status = .LORAMAC_EVENT_INFO_STATUS_OK then set_abp_mac_version v w else w
    | none => w
  (sync_device_class e w).2

/-- The function `send_join` of `lrw.c`. -/
def send_join (e : Env) (w : World) : LoRaMacStatus_t × World :=
  (e.LoRaMacMlmeRequest, w.call (.LoRaMacMlmeRequest (.Join .ACTIVATION_TYPE_OTAA DR_0)))

/-- The function `stop_join` of `lrw.c`. -/
def stop_join (L : Layout) (e : Env) (status : cmd_code_t) (w : World) : World :=
  let w := w.call .TimerStop
  let w := { w with joins_left := 0 }
  let w := w.call (.cmd_event .CMD_EVENT_JOIN status)
  let w := (sync_device_class e w).2
  if L.RESTORE_CHMASK_AFTER_JOIN then
    let w := w.call (.LoRaMacMibGetRequestConfirm .MIB_NETWORK_ACTIVATION)
    if e.NetworkActivation = .ACTIVATION_TYPE_OTAA then restore_chmask w else w
  else w

/-- The function `retransmit_join` of `lrw.c`. -/
def retransmit_join (L : Layout) (e : Env) (w : World) : World :=
  let (rc, w) := send_join e w
  if rc ≠ LORAMAC_STATUS_OK then
    let w := w.call (.log_error "Error while retransmitting Join")
    stop_join L e .CMD_JOIN_FAILED w
  else w

/-- The function `on_join_timer` of `lrw.c`, the expiry handler of
`join_retry_timer`. -/
def on_join_timer (L : Layout) (w : World) : World :=
  { w with
    system_sleep_lock := w.system_sleep_lock ||| L.SYSTEM_MODULE_LORA
    events := w.events ||| RETRANSMIT_JOIN }

/-- The function `join_callback_otaa` of `lrw.c`. -/
def join_callback_otaa (L : Layout) (e : Env) (param : MlmeConfirm_t) (w : World) : World :=
  let w := { w with joins_left := w.joins_left - 1 }
  if w.joins_left > 0 ∧ param.Status = .LORAMAC_EVENT_INFO_STATUS_RX2_TIMEOUT then
    let delay := e.randr 100 500 % 2 ^ 32
    let w := w.call (.TimerSetValue delay)
    w.call .TimerStart
  else
    stop_join L e
      (if param.Status = .LORAMAC_EVENT_INFO_STATUS_OK then .CMD_JOIN_SUCCEEDED
        else .CMD_JOIN_FAILED) w

/-- The function `join_callback` of `lrw.c`. -/
def join_callback (L : Layout) (e : Env) (param : MlmeConfirm_t) (w : World) : World :=
  let w := w.call (.LoRaMacMibGetRequestConfirm .MIB_NETWORK_ACTIVATION)
  if e.NetworkActivation = .ACTIVATION_TYPE_ABP then join_callback_abp L e param w
  else join_callback_otaa L e param w

/-- The function `cw_callback` of `lrw.c`. -/
def cw_callback (param : MlmeConfirm_t) (w : World) : World :=
  if param.Status = .LORAMAC_EVENT_INFO_STATUS_TX_TIMEOUT then
    w.call (.cmd_event .CMD_EVENT_CW .CMD_CW_END)
  else w

/-- The function `mlme_confirm` of `lrw.c`. -/
def mlme_confirm (L : Layout) (e : Env) (param : MlmeConfirm_t) (w : World) : World :=
  let w := { w with tx_params_Status := param.Status }
  match param.MlmeRequest with
  | .MLME_JOIN => join_callback L e param w
  | .MLME_LINK_CHECK => linkcheck_callback param w
  | .MLME_TXCW => cw_callback param w
  | .other _ => w

/-- A callback of `lrw.c` that the engine invokes from `LoRaMacProcess`. -/
inductive Callback
  | MacMlmeConfirm (param : MlmeConfirm_t)
  | NvmDataChange (flags : Nat)
  | MacProcessNotify
  deriving DecidableEq, Repr

/-- Run one callback. -/
def Callback.run (L : Layout) (e : Env) (w : World) : Callback → World
  | .MacMlmeConfirm param => mlme_confirm L e param w
  | .NvmDataChange flags => state_changed flags w
  | .MacProcessNotify => process_notify L w

/-- The function `lrw_process` of `lrw.c`; `cbs` are the callbacks the engine
invokes during this `LoRaMacProcess`. -/
def lrw_process (L : Layout) (e : Env) (cbs : List Callback) (w : World) : World :=
  let ev := w.events
  let w := { w with
    events := NO_EVENT
    system_sleep_lock := and_not32 w.system_sleep_lock L.SYSTEM_MODULE_LORA }
  let w := if ev &&& RETRANSMIT_JOIN ≠ 0 then retransmit_join L e w else w
  let w := if L.Radio_IrqProcess then w.call .Radio_IrqProcess else w
  let w := w.call .LoRaMacProcess
  let w := cbs.foldl (fun w cb => cb.run L e w) w
  save_state L e w

/-- The function `lrw_join` of `lrw.c`; `retries` is an `unsigned int`. -/
def lrw_join (L : Layout) (e : Env) (retries : Nat) (w : World) : LoRaMacStatus_t × World :=
  if w.joins_left ≠ 0 then (LORAMAC_STATUS_BUSY, w)
  else
    let w := w.call (.LoRaMacMibGetRequestConfirm .MIB_NETWORK_ACTIVATION)
    if e.NetworkActivation = .ACTIVATION_TYPE_ABP then
      if retries ≠ 0 then (LORAMAC_STATUS_PARAMETER_INVALID, w)
      else
        (e.LoRaMacMlmeRequest,
          w.call (.LoRaMacMlmeRequest (.Join .ACTIVATION_TYPE_ABP 0)))
    else
      if retries > 15 then (LORAMAC_STATUS_PARAMETER_INVALID, w)
      else
        let w := if L.RESTORE_CHMASK_AFTER_JOIN then save_chmask e w else w
        let w := { w with joins_left := (retries : Int) + 1 }
        send_join e w

/-! ## Region switch: `lrw_set_region` -/

/-- The field `MacGroup2.Region` of a block. -/
def Region (L : Layout) (s : LoRaMacNvmData_t) : Nat :=
  le_decode (read_field s.MacGroup2 L.offRegion L.szRegion)

/-- The field `Crypto.DevNonce` of a block. -/
def DevNonce (L : Layout) (s : LoRaMacNvmData_t) : Nat :=
  le_decode (read_field s.Crypto L.offDevNonce 2)

/-- The value of an `unsigned int` converted to `LoRaMacRegion_t`, an
enumeration of `szRegion` bytes without negative members: the value modulo
`256 ^ szRegion`. -/
def LoRaMacRegion_of_uint (L : Layout) (v : Nat) : Nat := v % 256 ^ L.szRegion

/-- The value of an `int` converted to `LoRaMacRegion_t`. -/
def LoRaMacRegion_of_int (L : Layout) (v : Int) : Nat :=
  (v % ((256 ^ L.szRegion : Nat) : Int)).toNat

/-- The function `lrw_set_region` of `lrw.c`; `region` is an `unsigned int`, the
result an `int`. The argument of `RegionIsActive` is a `LoRaMacRegion_t`, to
which `region` is converted at the call; the comparison with
`MacGroup2.Region` is made on the `unsigned int`, and the store into
`MacGroup2.Region` truncates it. The engine's own changes to its contexts
during `LoRaMacDeInitialization` are not part of `lrw.c`. -/
def lrw_set_region (L : Layout) (e : Env) (region : Nat) (w : World) : Int × World :=
  let w := w.call (.RegionIsActive (LoRaMacRegion_of_uint L region))
  if !e.RegionIsActive (LoRaMacRegion_of_uint L region) then
    (LORAMAC_STATUS_REGION_NOT_SUPPORTED, w)
  else
    let (state, w) := lrw_get_state w
    if region = Region L state then (-1, w)
    else
      let w := w.call .LoRaMacDeInitialization
      let rv := e.LoRaMacDeInitialization
      if rv ≠ LORAMAC_STATUS_OK then (rv, w)
      else
        let nonce := DevNonce L state
        let w := w.call .LoRaMacCryptoInit
        let crypto := e.LoRaMacCryptoInit state.Crypto
        let crypto := write_field crypto L.offDevNonce (le_encode 2 nonce)
        let crypto := update_block_crc crypto L.szCrypto
        let mac2 := zeros L.szMacGroup2
        let mac2 := write_field mac2 L.offRegion (le_encode L.szRegion region)
        let mac2 := write_field mac2 (L.szMacGroup2 - 4)
          (le_encode 4 (Crc32 (read_field mac2 L.offRegion L.szRegion)))
        let w := { w with Nvm :=
          { state with
            Crypto := crypto
            MacGroup1 := zeros L.szMacGroup1
            MacGroup2 := mac2
            RegionGroup1 := zeros L.szRegionGroup1
            RegionGroup2 := zeros L.szRegionGroup2
            ClassB := zeros L.szClassB } }
        let w := state_changed
          (LORAMAC_NVM_NOTIFY_FLAG_CRYPTO |||
           LORAMAC_NVM_NOTIFY_FLAG_MAC_GROUP1 |||
           LORAMAC_NVM_NOTIFY_FLAG_MAC_GROUP2 |||
           LORAMAC_NVM_NOTIFY_FLAG_REGION_GROUP1 |||
           LORAMAC_NVM_NOTIFY_FLAG_REGION_GROUP2 |||
           LORAMAC_NVM_NOTIFY_FLAG_CLASS_B) w
        (LORAMAC_STATUS_OK, w)

/-! ## Start-up: `load_deveui`, `restore_region`, `lrw_init` -/

/-- The size `SE_EUI_SIZE` of a device identifier. -/
def SE_EUI_SIZE : Nat := 8

/-- The function `load_deveui` of `lrw.c`: `dev_eui` is zeroed, and receives
the `DevEui` of the SecureElement partition when the partition is mapped, is
large enough, and passes the whole-block check or carries the checksum of its
`DevEui` in the trailer. -/
def load_deveui (L : Layout) (w : World) : World :=
  let w := { w with dev_eui := zeros SE_EUI_SIZE }
  match part_mmap w.nvm_parts.se with
  | none => w
  | some (p, size) =>
    if size < L.szSecureElement then w
    else
      let crc := trailer p L.szSecureElement
      if check_block_crc p L.szSecureElement ||
          Crc32 (read_field p L.offDevEui SE_EUI_SIZE) == crc then
        { w with dev_eui := read_field p L.offDevEui SE_EUI_SIZE }
      else w

/-- The table `region_map` of `lrw.c`, with the values of `LoRaMacRegion_t`
(Region.h). -/
def region_map : List (String × Int) :=
  [("AS923", 0), ("AU915", 1), ("CN470", 2), ("CN779", 3), ("EU433", 4),
   ("EU868", 5), ("KR920", 6), ("IN865", 7), ("US915", 8), ("RU864", 9)]

/-- The function `region2id` of `lrw.c`. -/
def region2id (name : Option String) : Int :=
  match name with
  | none => -1
  | some n =>
    match region_map.find? (fun m => m.1 == n) with
    | some m => m.2
    | none => -2

/-- The `int` that a `LoRaMacRegion_t` read from memory converts to. -/
def int_of_region (v : Nat) : Int :=
  if v % 2 ^ 32 < 2 ^ 31 then (v % 2 ^ 32 : Nat) else ((v % 2 ^ 32 : Nat) : Int) - 2 ^ 32

/-- The function `restore_region` of `lrw.c`. -/
def restore_region (L : Layout) (w : World) : Int :=
  match part_mmap w.nvm_parts.mac2 with
  | none => region2id L.DEFAULT_ACTIVE_REGION
  | some (p, size) =>
    if size < L.szMacGroup2 then region2id L.DEFAULT_ACTIVE_REGION
    else
      let crc := trailer p L.szMacGroup2
      if check_block_crc p L.szMacGroup2 ||
          Crc32 (read_field p L.offRegion L.szRegion) == crc then
        int_of_region (le_decode (read_field p L.offRegion L.szRegion))
      else region2id L.DEFAULT_ACTIVE_REGION

/-- The function `set_defaults` of `lrw.c`. -/
def set_defaults (L : Layout) (w : World) : World :=
  let w := w.call (.LoRaMacMibSetRequestConfirm (.MIB_JOIN_EUI [1, 1, 1, 1, 1, 1, 1, 1]))
  let w := w.call (.LoRaMacMibSetRequestConfirm (.MIB_ADR 1))
  let w := w.call (.LoRaMacMibSetRequestConfirm (.MIB_CHANNELS_TX_POWER 1))
  let w := match L.LORAMAC_ABP_VERSION with
    | some v => w.call (.LoRaMacMibSetRequestConfirm (.MIB_ABP_LORAWAN_VERSION v))
    | none => w
  let w := w.call
    (.LoRaMacMibSetRequestConfirm (.MIB_NETWORK_ACTIVATION .ACTIVATION_TYPE_ABP))
  w.call (.LoRaMacMibSetRequestConfirm (.MIB_IS_CERT_FPORT_ON false))

/-- The function `log_device_info` of `lrw.c`: its reads of the MIB. -/
def log_device_info (w : World) : World :=
  let w := w.call (.LoRaMacMibGetRequestConfirm .MIB_DEV_EUI)
  let w := w.call (.LoRaMacMibGetRequestConfirm .MIB_DEVICE_CLASS)
  w.call (.LoRaMacMibGetRequestConfirm .MIB_ADR)

/-- The function `log_network_info` of `lrw.c`: its reads of the MIB. -/
def log_network_info (e : Env) (w : World) : World :=
  let w := w.call (.LoRaMacMibGetRequestConfirm .MIB_PUBLIC_NETWORK)
  let w := w.call (.LoRaMacMibGetRequestConfirm .MIB_NETWORK_ACTIVATION)
  if e.NetworkActivation ≠ .ACTIVATION_TYPE_NONE then
    let w := w.call (.LoRaMacMibGetRequestConfirm .MIB_LORAWAN_VERSION)
    let w := w.call (.LoRaMacMibGetRequestConfirm .MIB_NET_ID)
    w.call (.LoRaMacMibGetRequestConfirm .MIB_DEV_ADDR)
  else w

/-- The function `lrw_init` of `lrw.c`. The `int` that `restore_region` returns
is stored in a `LoRaMacRegion_t`. The function `halt` does not return. -/
def lrw_init (L : Layout) (e : Env) (w : World) : World :=
  let w := { w with tx_params_Status := .LORAMAC_EVENT_INFO_STATUS_OK }
  let w := w.call .TimerInit
  let region := LoRaMacRegion_of_int L (restore_region L w)
  let w := w.call (.LoRaMacInitialization region)
  let rc := e.LoRaMacInitialization
  if rc = LORAMAC_STATUS_OK then
    let w := set_defaults L w
    let w := restore_state L e w
    let w := w.call (.LoRaMacMibSetRequestConfirm (.MIB_SYSTEM_MAX_RX_ERROR 20))
    let w := (sync_device_class e w).2
    let w := load_deveui L w
    let w :=
      if w.dev_eui = zeros SE_EUI_SIZE then
        let w := w.call .system_get_unique_id
        { w with dev_eui := e.system_get_unique_id w.dev_eui }
      else w
    let w := w.call (.LoRaMacMibSetRequestConfirm (.MIB_DEV_EUI w.dev_eui))
    let w :=
      if e.dev_eui_set_rc ≠ LORAMAC_STATUS_OK then
        w.call (.log_error "LoRaMac: Error while setting DevEUI")
      else w
    let w := log_device_info w
    let w := w.call (.LoRaMacMibGetRequestConfirm .MIB_DEV_ADDR)
    let devaddr := e.DevAddr
    let w :=
      if devaddr = 0 then
        let devaddr := e.randr 0x02000000 0x03ffffff % 2 ^ 32
        let w := w.call (.LoRaMacMibSetRequestConfirm (.MIB_DEV_ADDR devaddr))
        if e.dev_addr_set_rc ≠ LORAMAC_STATUS_OK then
          w.call (.log_error "LoRaMac: Error while setting DevAddr")
        else w
      else w
    log_network_info e w
  else if rc = LORAMAC_STATUS_PARAMETER_INVALID then
    w.call (.halt "LoRaMac: Invalid initialization parameter(s)")
  else if rc = LORAMAC_STATUS_REGION_NOT_SUPPORTED then
    w.call (.log_error "LoRaMac: Unsupported region")
  else
    w.call (.halt "LoRaMac: Initialization error")

/-! ## Uplink: `lrw_send` -/

/-- The member `ChannelsDatarate` (an `int8_t`) of the union `MibParam_t`: the
byte at offset 0 of the union, as a signed value. -/
def MibParam_ChannelsDatarate (param : Bytes) : Int :=
  let b := param.headD 0 % 256
  if b < 128 then (b : Int) else (b : Int) - 256

/-- Assignment to the member `ChannelsDatarate` of the union `MibParam_t`. -/
def MibParam_set_ChannelsDatarate (param : Bytes) (v : Int) : Bytes :=
  write_field param 0 [(v % 256).toNat]

/-- The member `ChannelsNbTrans` (a `uint8_t`) of the union `MibParam_t`: the
byte at offset 0 of the union. -/
def MibParam_ChannelsNbTrans (param : Bytes) : Nat := param.headD 0 % 256

/-- Assignment to the member `ChannelsNbTrans` of the union `MibParam_t`. -/
def MibParam_set_ChannelsNbTrans (param : Bytes) (v : Nat) : Bytes :=
  write_field param 0 [v % 256]

/-- The function `lrw_send` of `lrw.c`; `buffer` is `none` for `NULL`, `length`
is a `uint8_t`. The local `r` is a `MibRequestConfirm_t`, whose `Param` is a
union kept here as its bytes. -/
def lrw_send (L : Layout) (e : Env) (port : Nat) (buffer : Option Bytes) (length : Nat)
    (confirmed : Bool) (w : World) : LoRaMacStatus_t × World :=
  let r_Param := zeros L.szMibParam
  let w := w.call (.LoRaMacMibGetRequestConfirm .MIB_CHANNELS_DATARATE)
  let r_Param := MibParam_set_ChannelsDatarate r_Param e.ChannelsDatarate
  let w := w.call (.LoRaMacQueryTxPossible length)
  let rc := e.LoRaMacQueryTxPossible length
  if rc = LORAMAC_STATUS_LENGTH_ERROR then
    let r_Param := MibParam_set_ChannelsNbTrans r_Param 1
    let w := w.call
      (.LoRaMacMibSetRequestConfirm (.MIB_CHANNELS_NB_TRANS (MibParam_ChannelsNbTrans r_Param)))
    let rc := e.nb_trans_set_rc
    if rc ≠ LORAMAC_STATUS_OK then (rc, w)
    else
      let mr : McpsReq_t :=
        { type := .MCPS_UNCONFIRMED, fPort := 0, fBuffer := none, fBufferSize := 0
          Datarate := MibParam_ChannelsDatarate r_Param }
      let w := w.call (.LoRaMacMcpsRequest mr)
      (rc, w)
  else if port ≠ 0 ∧ length = 0 then (LORAMAC_STATUS_LENGTH_ERROR, w)
  else
    let mr : McpsReq_t :=
      { type := if confirmed then .MCPS_CONFIRMED else .MCPS_UNCONFIRMED
        fPort := port, fBuffer := buffer, fBufferSize := length
        Datarate := MibParam_ChannelsDatarate r_Param }
    let r_Param := MibParam_set_ChannelsNbTrans r_Param
      (if confirmed then e.sysconf_confirmed_retransmissions
        else e.sysconf_unconfirmed_retransmissions)
    let w := w.call
      (.LoRaMacMibSetRequestConfirm (.MIB_CHANNELS_NB_TRANS (MibParam_ChannelsNbTrans r_Param)))
    let rc := e.nb_trans_set_rc
    if rc ≠ LORAMAC_STATUS_OK then (rc, w)
    else
      let w := w.call (.LoRaMacMcpsRequest mr)
      (e.LoRaMacMcpsRequest, w)

/-! ## Concrete data for the examples -/

/-- A small layout: `DevNonce` opens the Crypto group, `Region` (one byte) opens
MacGroup2, `DevEui` opens the SecureElement group. -/
def exLayout : Layout :=
  { szCrypto := 8, szMacGroup1 := 4, szMacGroup2 := 8, szSecureElement := 12
    szRegionGroup1 := 4, szRegionGroup2 := 4, szClassB := 4
    offDevNonce := 0, offRegion := 0, szRegion := 1, offDevEui := 0
    SYSTEM_MODULE_LORA := 1, SYSTEM_MODULE_NVM := 2
    RESTORE_CHMASK_AFTER_JOIN := false, LORAMAC_ABP_VERSION := none
    Radio_IrqProcess := true, szMibParam := 4, DEFAULT_ACTIVE_REGION := some "EU868" }

/-- An idle engine in OTAA mode that accepts every request; flash writes
succeed. -/
def exEnv : Env :=
  { LoRaMacIsBusy := false, flash_ok := true
    NetworkActivation := .ACTIVATION_TYPE_NONE
    class_get_rc := LORAMAC_STATUS_OK, Class := 0, class_set_rc := LORAMAC_STATUS_OK
    ctxs_set_rc := LORAMAC_STATUS_OK, ChannelsDefaultMask := [0xFFFF]
    LoRaMacMlmeRequest := LORAMAC_STATUS_OK
    LoRaMacDeInitialization := LORAMAC_STATUS_OK
    RegionIsActive := fun r => decide (r < 10)
    LoRaMacCryptoInit := fun g => zeros g.length
    randr := fun lo _ => lo
    sysconf_device_class := 0
    sysconf_confirmed_retransmissions := 8, sysconf_unconfirmed_retransmissions := 1
    LoRaMacInitialization := LORAMAC_STATUS_OK
    system_get_unique_id := fun _ => [0x32, 0x33, 0x37, 0x38, 0x11, 0x22, 0x33, 0x44]
    dev_eui_set_rc := LORAMAC_STATUS_OK
    DevAddr := 0x02000001, dev_addr_set_rc := LORAMAC_STATUS_OK
    ChannelsDatarate := 5
    LoRaMacQueryTxPossible := fun _ => LORAMAC_STATUS_OK
    nb_trans_set_rc := LORAMAC_STATUS_OK
    LoRaMacMcpsRequest := LORAMAC_STATUS_OK }

/-- The block of the examples; its MacGroup2 holds region 5. -/
def exNvm : LoRaMacNvmData_t :=
  { Crypto := [7, 1, 0, 0, 1, 2, 3, 4], MacGroup1 := [9, 8, 7, 6]
    MacGroup2 := [5, 0, 0, 0, 1, 2, 3, 4]
    SecureElement := [1, 2, 3, 4, 5, 6, 7, 8, 0, 0, 0, 0]
    RegionGroup1 := [1, 1, 1, 1], RegionGroup2 := [2, 2, 2, 2], ClassB := [3, 3, 3, 3] }

/-- Erased partitions of the sizes of the groups; the ClassB partition is
missing. -/
def exParts : NvmParts :=
  { crypto := some (zeros 8), mac1 := some (zeros 4), mac2 := some (zeros 8)
    se := some (zeros 12), region1 := some (zeros 4), region2 := some (zeros 4)
    classb := none }

/-- An idle session with MacGroup1 and MacGroup2 marked dirty. -/
def exWorld : World :=
  { nvm_flags := 0x06, system_sleep_lock := 0, events := 0, joins_left := 0
    tx_params_Status := .LORAMAC_EVENT_INFO_STATUS_OK, saved_chmask := []
    dev_eui := zeros 8
    Nvm := exNvm, nvm_parts := exParts, trace := [] }

/-- The environment of the examples with a flash driver that fails. -/
def exEnvFlashFail : Env := { exEnv with flash_ok := false }

/-- Partitions whose MacGroup2 partition holds region 5 under a trailer that is
no checksum of its contents. -/
def exPartsCorrupt : NvmParts := { exParts with mac2 := some [5, 0, 0, 0, 1, 2, 3, 4] }

/-- The engine of the examples in ABP mode. -/
def exEnvAbp : Env := { exEnv with NetworkActivation := .ACTIVATION_TYPE_ABP }

/-- The world of the examples during a join with `n` attempts left. -/
def exJoining (n : Int) : World := { exWorld with joins_left := n }

/-- A join confirm with the given status. -/
def join_confirm (status : LoRaMacEventInfoStatus_t) : MlmeConfirm_t :=
  { MlmeRequest := .MLME_JOIN, Status := status, DemodMargin := 0, NbGateways := 0 }

/-! ## Join scenarios -/

/-- One retry round of an OTAA join: the engine confirms the join request with
status RX2-timeout (environment `ec`), the retry timer expires, and the next
`lrw_process` (environment `ep`) retransmits. -/
def timeout_round (L : Layout) (ec ep : Env) (w : World) : World :=
  let w := mlme_confirm L ec (join_confirm .LORAMAC_EVENT_INFO_STATUS_RX2_TIMEOUT) w
  let w := on_join_timer L w
  lrw_process L ep [] w

/-- The first `n` retry rounds; round `k` runs in the environments `ec k` and
`ep k`. -/
def timeout_rounds (L : Layout) (ec ep : Nat → Env) : Nat → World → World
  | 0, w => w
  | n + 1, w => timeout_round L (ec n) (ep n) (timeout_rounds L ec ep n w)

/-- The scenario `lrw_join(r)`, `r` retry rounds, then a confirm with status
OK. -/
def join_then_success (L : Layout) (e0 : Env) (ec ep : Nat → Env) (eN : Env) (r : Nat)
    (w : World) : World :=
  let w := (lrw_join L e0 r w).2
  let w := timeout_rounds L ec ep r w
  mlme_confirm L eN (join_confirm .LORAMAC_EVENT_INFO_STATUS_OK) w

/-- The calls of a join: timer, join notification, class reapplication, MLME
request. -/
def join_call : Call → Bool
  | .TimerSetValue _ => true
  | .TimerStart => true
  | .TimerStop => true
  | .cmd_event .CMD_EVENT_JOIN _ => true
  | .sync_device_class => true
  | .LoRaMacMlmeRequest _ => true
  | _ => false

/-- The calls of a join in a trace. -/
def join_view (t : List Call) : List Call := t.filter join_call

/-- How often a trace arms the retry timer. -/
def timer_arms (t : List Call) : Nat :=
  (t.filter fun c => match c with
    | .TimerStart => true
    | _ => false).length

/-- The join notifications of a trace. -/
def join_notifications (t : List Call) : List Call :=
  t.filter fun c => match c with
    | .cmd_event .CMD_EVENT_JOIN _ => true
    | _ => false

/-- How often a trace enters `sync_device_class`. -/
def sync_calls (t : List Call) : Nat :=
  (t.filter fun c => match c with
    | .sync_device_class => true
    | _ => false).length

/-- The MLME requests of a trace. -/
def mlme_requests (t : List Call) : List Call :=
  t.filter fun c => match c with
    | .LoRaMacMlmeRequest _ => true
    | _ => false

/-- Every byte of a byte string is below 256. -/
def valid_bytes (b : Bytes) : Prop := ∀ x ∈ b, x < 256

/-- The engine of the examples, answering `LORAMAC_STATUS_LENGTH_ERROR` to
`LoRaMacQueryTxPossible`. -/
def exEnvLengthError : Env :=
  { exEnv with LoRaMacQueryTxPossible := fun _ => LORAMAC_STATUS_LENGTH_ERROR }

/-- The engine of the examples, rejecting MLME requests with
`LORAMAC_STATUS_DUTYCYCLE_RESTRICTED`. -/
def exEnvJoinRejected : Env :=
  { exEnv with LoRaMacMlmeRequest := LORAMAC_STATUS_DUTYCYCLE_RESTRICTED }

/-- Partitions whose SecureElement partition holds the identifier
`01 02 03 04 05 06 07 08` under the checksum of the identifier alone. -/
def exPartsDevEui : NvmParts :=
  { exParts with
    se := some ([1, 2, 3, 4, 5, 6, 7, 8] ++ le_encode 4 (Crc32 [1, 2, 3, 4, 5, 6, 7, 8])) }

/-- The scenario `lrw_join(r)`, `r` retry rounds, then one more confirm with
status RX2-timeout. -/
def join_then_failure (L : Layout) (e0 : Env) (ec ep : Nat → Env) (eN : Env) (r : Nat)
    (w : World) : World :=
  let w := (lrw_join L e0 r w).2
  let w := timeout_rounds L ec ep r w
  mlme_confirm L eN (join_confirm .LORAMAC_EVENT_INFO_STATUS_RX2_TIMEOUT) w

/-- One join confirm of any status in the environment `ev.2.1`; when the
handler arms the retry timer, the timer expires and the next `lrw_process`
(environment `ev.2.2`) retransmits. -/
def confirm_round (L : Layout) (ev : LoRaMacEventInfoStatus_t × Env × Env) (w : World) :
    World :=
  let w1 := mlme_confirm L ev.2.1 (join_confirm ev.1) w
  if timer_arms w.trace < timer_arms w1.trace then lrw_process L ev.2.2 [] (on_join_timer L w1)
  else w1

/-- A sequence of join confirms. -/
def confirm_rounds (L : Layout) (evs : List (LoRaMacEventInfoStatus_t × Env × Env))
    (w : World) : World :=
  evs.foldl (fun w ev => confirm_round L ev w) w

/-- The sets of `MIB_DEV_EUI` in a trace. -/
def dev_eui_sets (t : List Call) : List Call :=
  t.filter fun c => match c with
    | .LoRaMacMibSetRequestConfirm (.MIB_DEV_EUI _) => true
    | _ => false

/-- The uplink requests of a trace. -/
def mcps_requests (t : List Call) : List Call :=
  t.filter fun c => match c with
    | .LoRaMacMcpsRequest _ => true
    | _ => false

/-- The contents `load_deveui` leaves in `dev_eui`, as a function of the
SecureElement partition. -/
def loaded_deveui (L : Layout) (se : Option Bytes) : Bytes :=
  match se with
  | none => zeros SE_EUI_SIZE
  | some d =>
    if d.length < L.szSecureElement then zeros SE_EUI_SIZE
    else if check_block_crc d L.szSecureElement = true ∨
        Crc32 (read_field d L.offDevEui SE_EUI_SIZE) = trailer d L.szSecureElement then
      read_field d L.offDevEui SE_EUI_SIZE
    else zeros SE_EUI_SIZE

/-! ## Interrupts during `save_state`

The foreground function `save_state` at the granularity of its C statements,
with one interrupt in which the engine calls `state_changed(flags)`. The
first component of a state is the pending interrupt: `some k` when it is due
`k` statements ahead, `none` when none is pending (it has run, or there is
none). The interrupt cannot run inside the `disable_irq` sections. -/

theorem Group.flag_eq (g : Group) : g.flag = 2 ^ g.bit := by
  cases g <;> rfl

theorem Group.bit_lt (g : Group) : g.bit < 16 := by
  cases g <;> decide

theorem flag_test_iff (x : Nat) (g : Group) : x &&& g.flag ≠ 0 ↔ x.testBit g.bit = true := by
  rw [g.flag_eq, Nat.and_two_pow]
  cases h : x.testBit g.bit <;> simp

theorem ne_zero_of_testBit {x i : Nat} (h : x.testBit i = true) : x ≠ 0 := by
  rintro rfl
  simp at h

theorem testBit_and_not16 (x i : Nat) (g : Group) (hx : x < 2 ^ 16) :
    (and_not16 x g.flag).testBit i = (x.testBit i && decide (i ≠ g.bit)) := by
  have h32 : (0xFFFFFFFF : Nat) = 2 ^ 32 - 1 := by norm_num
  unfold and_not16
  rw [g.flag_eq, h32, Nat.testBit_mod_two_pow, Nat.testBit_and, Nat.testBit_xor,
    Nat.testBit_two_pow_sub_one, Nat.testBit_two_pow]
  have hb := g.bit_lt
  by_cases hi : i < 16
  · have hi32 : i < 32 := by omega
    by_cases hg : g.bit = i
    · subst hg; simp [hi, hi32]
    · have hg2 : i ≠ g.bit := fun h => hg h.symm
      simp [hi, hi32, hg, hg2]
  · have hxi : x.testBit i = false :=
      Nat.testBit_lt_two_pow (lt_of_lt_of_le hx (Nat.pow_le_pow_right (by decide) (by omega)))
    simp [hi, hxi]

/-- The function `save_state`, read through the reference `first_dirty`. -/
theorem save_state_eq (L : Layout) (e : Env) (w : World) :
    save_state L e w =
      if w.nvm_flags = LORAMAC_NVM_NOTIFY_FLAG_NONE then
        { w with system_sleep_lock := and_not32 w.system_sleep_lock L.SYSTEM_MODULE_NVM }
      else
        let w1 := ({ w with system_sleep_lock := w.system_sleep_lock ||| L.SYSTEM_MODULE_NVM }).call
          (.LoRaMacMibGetRequestConfirm .MIB_NVM_CTXS)
        match first_dirty w.nvm_flags with
        | none => w1
        | some g => save_group L e w.Nvm g w1 := by
  have hC := flag_test_iff w.nvm_flags .Crypto
  have h1 := flag_test_iff w.nvm_flags .MacGroup1
  have h2 := flag_test_iff w.nvm_flags .MacGroup2
  have hS := flag_test_iff w.nvm_flags .SecureElement
  have h4 := flag_test_iff w.nvm_flags .RegionGroup1
  have h5 := flag_test_iff w.nvm_flags .RegionGroup2
  have h6 := flag_test_iff w.nvm_flags .ClassB
  simp only [Group.flag, Group.bit] at hC h1 h2 hS h4 h5 h6
  unfold save_state
  by_cases h0 : w.nvm_flags = LORAMAC_NVM_NOTIFY_FLAG_NONE
  · simp [h0]
  · simp only [h0, if_false, lrw_get_state, World.call, first_dirty, priority, Group.bit]
    by_cases bC : w.nvm_flags.testBit 0 = true
    · simp [bC, hC.mpr bC]
    by_cases b1 : w.nvm_flags.testBit 1 = true
    · simp [bC, b1, h1.mpr b1, hC]
    by_cases b2 : w.nvm_flags.testBit 2 = true
    · simp [bC, b1, b2, h2.mpr b2, hC, h1]
    by_cases bS : w.nvm_flags.testBit 3 = true
    · simp [bC, b1, b2, bS, hS.mpr bS, hC, h1, h2]
    by_cases b4 : w.nvm_flags.testBit 4 = true
    · simp [bC, b1, b2, bS, b4, h4.mpr b4, hC, h1, h2, hS]
    by_cases b5 : w.nvm_flags.testBit 5 = true
    · simp [bC, b1, b2, bS, b4, b5, h5.mpr b5, hC, h1, h2, hS, h4]
    by_cases b6 : w.nvm_flags.testBit 6 = true
    · simp [bC, b1, b2, bS, b4, b5, b6, h6.mpr b6, hC, h1, h2, hS, h4, h5]
    · simp [bC, b1, b2, bS, b4, b5, b6, hC, h1, h2, hS, h4, h5, h6]

theorem first_dirty_testBit {x : Nat} {g : Group} (h : first_dirty x = some g) :
    x.testBit g.bit = true := by
  unfold first_dirty at h
  simpa using List.find?_some h

theorem part_writes_append (a b : List Call) :
    part_writes (a ++ b) = part_writes a ++ part_writes b := by
  simp [part_writes]

theorem save_group_busy (L : Layout) (e : Env) (s : LoRaMacNvmData_t) (g : Group) (w : World)
    (h : e.LoRaMacIsBusy = true) : save_group L e s g w = w := by
  simp [save_group, h]

theorem save_group_idle_flags (L : Layout) (e : Env) (s : LoRaMacNvmData_t) (g : Group)
    (w : World) (h : e.LoRaMacIsBusy = false) :
    (save_group L e s g w).nvm_flags = and_not16 w.nvm_flags g.flag := by
  unfold save_group
  cases hr : (part_write e.flash_ok (w.nvm_parts.part g) 0 (s.group g) (L.sizeof g)).1 <;>
    simp [h, hr, World.call]

theorem save_group_idle_writes (L : Layout) (e : Env) (s : LoRaMacNvmData_t) (g : Group)
    (w : World) (h : e.LoRaMacIsBusy = false) :
    part_writes (save_group L e s g w).trace =
      part_writes w.trace ++ [Call.part_write g 0 (s.group g) (L.sizeof g)] := by
  unfold save_group
  cases hr : (part_write e.flash_ok (w.nvm_parts.part g) 0 (s.group g) (L.sizeof g)).1 <;>
    simp [h, hr, World.call, part_writes, List.filter_append]

theorem save_group_idle_parts (L : Layout) (e : Env) (s : LoRaMacNvmData_t) (g : Group)
    (w : World) (h : e.LoRaMacIsBusy = false) :
    (save_group L e s g w).nvm_parts =
      w.nvm_parts.setPart g
        (part_write e.flash_ok (w.nvm_parts.part g) 0 (s.group g) (L.sizeof g)).2 := by
  unfold save_group
  cases hr : (part_write e.flash_ok (w.nvm_parts.part g) 0 (s.group g) (L.sizeof g)).1 <;>
    simp [h, hr, World.call]

/-- With an idle engine, `save_state` writes the first dirty group `g` once and
clears the bit of `g` only. -/
theorem save_state_idle (L : Layout) (e : Env) (w : World) (g : Group)
    (hflags : w.nvm_flags < 2 ^ 16)
    (hsel : first_dirty w.nvm_flags = some g)
    (hidle : e.LoRaMacIsBusy = false) :
    part_writes (save_state L e w).trace =
      part_writes w.trace ++ [Call.part_write g 0 (w.Nvm.group g) (L.sizeof g)] ∧
    ∀ i, (save_state L e w).nvm_flags.testBit i =
      (w.nvm_flags.testBit i && decide (i ≠ g.bit)) := by
  have hne : w.nvm_flags ≠ LORAMAC_NVM_NOTIFY_FLAG_NONE :=
    ne_zero_of_testBit (first_dirty_testBit hsel)
  rw [save_state_eq]
  simp only [hne, if_false, hsel]
  rw [save_group_idle_writes _ _ _ _ _ hidle, save_group_idle_flags _ _ _ _ _ hidle]
  refine ⟨by simp [World.call, part_writes_append, part_writes], fun i => ?_⟩
  exact testBit_and_not16 _ i g hflags

/-- Claim C1. `save_state` against the reference: with no group flag set it
issues no write; otherwise, for the first flagged group `g` in priority order,
a busy engine means no write and an unchanged flag set, and an idle engine
means exactly one write, of the whole group `g` at offset 0 of the partition
of `g`, after which the flag set is the old one with only the bit of `g`
cleared. -/
theorem save_state_reference (L : Layout) (e : Env) (w : World)
    (hflags : w.nvm_flags < 2 ^ 16) :
    (first_dirty w.nvm_flags = none →
      part_writes (save_state L e w).trace = part_writes w.trace ∧
      (save_state L e w).nvm_flags = w.nvm_flags) ∧
    (∀ g, first_dirty w.nvm_flags = some g →
      (e.LoRaMacIsBusy = true →
        part_writes (save_state L e w).trace = part_writes w.trace ∧
        (save_state L e w).nvm_flags = w.nvm_flags) ∧
      (e.LoRaMacIsBusy = false →
        part_writes (save_state L e w).trace =
          part_writes w.trace ++ [Call.part_write g 0 (w.Nvm.group g) (L.sizeof g)] ∧
        ∀ i, (save_state L e w).nvm_flags.testBit i =
          (w.nvm_flags.testBit i && decide (i ≠ g.bit)))) := by
  refine ⟨fun hnone => ?_, fun g hg => ⟨fun hbusy => ?_, save_state_idle L e w g hflags hg⟩⟩
  · rw [save_state_eq]
    by_cases h0 : w.nvm_flags = LORAMAC_NVM_NOTIFY_FLAG_NONE
    · simp [h0]
    · simp [h0, hnone, World.call, part_writes_append, part_writes]
  · have hne : w.nvm_flags ≠ LORAMAC_NVM_NOTIFY_FLAG_NONE :=
      ne_zero_of_testBit (first_dirty_testBit hg)
    rw [save_state_eq]
    simp only [hne, if_false, hg]
    rw [save_group_busy _ _ _ _ _ hbusy]
    simp [World.call, part_writes_append, part_writes]

/-- Claim C1 at the example: MacGroup1 is the first dirty group, the engine is
idle, and the one write is that of MacGroup1. -/
theorem save_state_reference_witness :
    exWorld.nvm_flags < 2 ^ 16 ∧ first_dirty exWorld.nvm_flags = some .MacGroup1 ∧
    part_writes (save_state exLayout exEnv exWorld).trace =
      part_writes exWorld.trace ++ [Call.part_write .MacGroup1 0 [9, 8, 7, 6] 4] ∧
    (save_state exLayout exEnv exWorld).nvm_flags = 0x04 :=
  ⟨by decide, by decide,
    (((save_state_reference exLayout exEnv exWorld (by decide)).2 .MacGroup1 (by decide)).2
      rfl).1,
    by decide⟩

/-- Claim C2 fails on the code: MacGroup1 is selected, its write fails, and
`save_state` returns with the MacGroup1 flag cleared; the next call with an
idle engine selects MacGroup2 and never writes MacGroup1 again. -/
theorem failed_write_clears_flag :
    first_dirty exWorld.nvm_flags = some .MacGroup1 ∧
    (part_write exEnvFlashFail.flash_ok (exWorld.nvm_parts.part .MacGroup1) 0
      (exWorld.Nvm.group .MacGroup1) (exLayout.sizeof .MacGroup1)).1 = false ∧
    (save_state exLayout exEnvFlashFail exWorld).nvm_flags.testBit Group.MacGroup1.bit = false ∧
    first_dirty (save_state exLayout exEnvFlashFail exWorld).nvm_flags = some .MacGroup2 ∧
    part_writes (save_state exLayout exEnv (save_state exLayout exEnvFlashFail exWorld)).trace =
      [Call.part_write .MacGroup1 0 [9, 8, 7, 6] 4,
       Call.part_write .MacGroup2 0 [5, 0, 0, 0, 1, 2, 3, 4] 8] := by
  decide

/-- Claim C2 as amended. When the write of the selected group fails, the
failure is logged and nothing else differs from a successful write: the bit of
the group is cleared, and the group is not selected by the next call. -/
theorem failed_write_is_only_logged (L : Layout) (e : Env) (w : World) (g : Group)
    (hflags : w.nvm_flags < 2 ^ 16)
    (hsel : first_dirty w.nvm_flags = some g)
    (hidle : e.LoRaMacIsBusy = false)
    (hfail : (part_write e.flash_ok (w.nvm_parts.part g) 0 (w.Nvm.group g) (L.sizeof g)).1
      = false) :
    Call.log_error ("Error while writing " ++ g.name ++ " state to NVM")
      ∈ (save_state L e w).trace ∧
    (∀ i, (save_state L e w).nvm_flags.testBit i =
      (w.nvm_flags.testBit i && decide (i ≠ g.bit))) ∧
    first_dirty (save_state L e w).nvm_flags ≠ some g := by
  have hbits := save_state_idle L e w g hflags hsel hidle
  refine ⟨?_, hbits.2, fun h => ?_⟩
  · rw [save_state_eq]
    have hne : w.nvm_flags ≠ LORAMAC_NVM_NOTIFY_FLAG_NONE :=
      ne_zero_of_testBit (first_dirty_testBit hsel)
    simp only [hne, if_false, hsel]
    unfold save_group
    simp [hidle, World.call, hfail]
  · have h1 := first_dirty_testBit h
    rw [hbits.2] at h1
    simp at h1

/-- Claim C2 as amended, at the example with a failing flash driver. -/
theorem failed_write_is_only_logged_witness :
    exWorld.nvm_flags < 2 ^ 16 ∧
    first_dirty (save_state exLayout exEnvFlashFail exWorld).nvm_flags ≠ some .MacGroup1 :=
  ⟨by decide,
    (failed_write_is_only_logged exLayout exEnvFlashFail exWorld .MacGroup1 (by decide)
      (by decide) rfl (by decide)).2.2⟩

/-! ## Save and restore -/

theorem restore_block_group (L : Layout) (parts : NvmParts) (g : Group) :
    (restore_block L parts).group g = restore_group (L.sizeof g) (parts.part g) := by
  cases g <;> rfl

theorem setPart_part (p : NvmParts) (g : Group) (d : Option Bytes) :
    (p.setPart g d).part g = d := by
  cases g <;> rfl

theorem restore_group_absent (sz : Nat) : restore_group sz none = zeros sz := rfl

theorem restore_group_small (sz : Nat) (d : Bytes) (h : d.length < sz) :
    restore_group sz (some d) = zeros sz := by
  simp [restore_group, part_mmap, Nat.not_le.mpr h]

theorem restore_group_large (sz : Nat) (d : Bytes) (h : sz ≤ d.length) :
    restore_group sz (some d) = d.take sz := by
  simp [restore_group, part_mmap, h]

theorem restore_state_trace (L : Layout) (e : Env) (w : World) :
    (restore_state L e w).trace =
      w.trace ++
        Call.LoRaMacMibSetRequestConfirm (.MIB_NVM_CTXS (restore_block L w.nvm_parts)) ::
          (if e.ctxs_set_rc ≠ LORAMAC_STATUS_OK then
            [Call.log_error "LoRaMac: Error while restoring NVM state"] else []) := by
  unfold restore_state
  by_cases h : e.ctxs_set_rc = LORAMAC_STATUS_OK <;> simp [h, World.call]

/-- What a successful `part_write` of a whole group at offset 0 leaves in the
partition: the group, followed by the rest of the partition. -/
theorem part_write_ok (ok : Bool) (p : Option Bytes) (buf : Bytes) (len : Nat)
    (hlen : buf.length = len) (h : (part_write ok p 0 buf len).1 = true) :
    ∃ d, p = some d ∧ len ≤ d.length ∧
      (part_write ok p 0 buf len).2 = some (buf ++ d.drop len) := by
  cases p with
  | none => simp [part_write] at h
  | some d =>
    by_cases hc : ok = true ∧ len ≤ d.length
    · refine ⟨d, rfl, hc.2, ?_⟩
      subst hlen
      simp [part_write, hc.1, hc.2]
    · simp [part_write, hc] at h

/-- Claim C3. Persistence round trip: when `save_state` writes the selected
group `g` successfully to a partition at least as large as the group, then
`restore_state`, run on those partitions after a reboot, hands the engine one
block, whose copy of `g` is byte for byte the in-memory group that was
written; and a group whose partition is absent or smaller than the group is
handed over as zero bytes. -/
theorem persistence_round_trip (L : Layout) (e e2 : Env) (w w2 : World) (g : Group)
    (hwf : w.Nvm.WF L)
    (hsel : first_dirty w.nvm_flags = some g)
    (hidle : e.LoRaMacIsBusy = false)
    (hok : (part_write e.flash_ok (w.nvm_parts.part g) 0 (w.Nvm.group g) (L.sizeof g)).1
      = true)
    (hlarge : ∃ d, w.nvm_parts.part g = some d ∧ L.sizeof g ≤ d.length)
    (hreboot : w2.nvm_parts = (save_state L e w).nvm_parts) :
    (restore_state L e2 w2).trace =
      w2.trace ++
        Call.LoRaMacMibSetRequestConfirm (.MIB_NVM_CTXS (restore_block L w2.nvm_parts)) ::
          (if e2.ctxs_set_rc ≠ LORAMAC_STATUS_OK then
            [Call.log_error "LoRaMac: Error while restoring NVM state"] else []) ∧
    (restore_block L w2.nvm_parts).group g = w.Nvm.group g ∧
    (∀ (parts : NvmParts) (h : Group),
      (parts.part h = none ∨ ∃ d, parts.part h = some d ∧ d.length < L.sizeof h) →
      (restore_block L parts).group h = zeros (L.sizeof h)) := by
  refine ⟨restore_state_trace L e2 w2, ?_, ?_⟩
  · have hne : w.nvm_flags ≠ LORAMAC_NVM_NOTIFY_FLAG_NONE :=
      ne_zero_of_testBit (first_dirty_testBit hsel)
    obtain ⟨d, _, hle, hw⟩ := part_write_ok _ _ _ _ (hwf g) hok
    rw [hreboot, save_state_eq]
    simp only [hne, if_false, hsel]
    rw [save_group_idle_parts _ _ _ _ _ hidle, restore_block_group, setPart_part]
    simp only [World.call]
    have hg := hwf g
    rw [hw, restore_group_large _ _ (by simp only [List.length_append]; omega)]
    rw [← hwf g]
    simp
  · rintro parts h (hn | ⟨d, hd, hlt⟩)
    · rw [restore_block_group, hn, restore_group_absent]
    · rw [restore_block_group, hd, restore_group_small _ _ hlt]

/-- Claim C3 at the example: MacGroup1 is written to its (erased) partition
and read back. -/
theorem persistence_round_trip_witness :
    exNvm.WF exLayout ∧ first_dirty exWorld.nvm_flags = some .MacGroup1 ∧
    (restore_block exLayout (save_state exLayout exEnv exWorld).nvm_parts).group .MacGroup1
      = [9, 8, 7, 6] :=
  ⟨by intro g; cases g <;> rfl, by decide,
    (persistence_round_trip exLayout exEnv exEnv exWorld
      { exWorld with nvm_parts := (save_state exLayout exEnv exWorld).nvm_parts } .MacGroup1
      (by intro g; cases g <;> rfl) (by decide) rfl (by decide)
      ⟨zeros 4, rfl, by decide⟩ rfl).2.1⟩

/-- Claim C4 fails on the code: the MacGroup2 partition is present and large
enough, its trailer is neither the checksum of the group without the trailer
nor the checksum of the `Region` field, and the copy of MacGroup2 that
`restore_state` hands to the engine is the partition's content, not zero. -/
theorem corrupt_group_is_handed_over :
    exPartsCorrupt.part .MacGroup2 = some [5, 0, 0, 0, 1, 2, 3, 4] ∧
    exLayout.sizeof .MacGroup2 ≤ [5, 0, 0, 0, 1, 2, 3, 4].length ∧
    trailer [5, 0, 0, 0, 1, 2, 3, 4] 8 ≠ Crc32 [5, 0, 0, 0] ∧
    trailer [5, 0, 0, 0, 1, 2, 3, 4] 8 ≠
      Crc32 (read_field [5, 0, 0, 0, 1, 2, 3, 4] exLayout.offRegion exLayout.szRegion) ∧
    (restore_state exLayout exEnv { exWorld with nvm_parts := exPartsCorrupt }).trace =
      [Call.LoRaMacMibSetRequestConfirm (.MIB_NVM_CTXS (restore_block exLayout exPartsCorrupt))] ∧
    (restore_block exLayout exPartsCorrupt).group .MacGroup2 = [5, 0, 0, 0, 1, 2, 3, 4] ∧
    (restore_block exLayout exPartsCorrupt).group .MacGroup2 ≠ zeros (exLayout.sizeof .MacGroup2) := by
  decide

/-- Claim C4 as amended. The function `restore_state` tests no checksum: for
every group whose partition is present and at least as large as the group, the
copy handed to the engine is the first `sizeof` bytes of the partition,
whatever its trailer. -/
theorem restore_state_copies_unchecked (L : Layout) (e : Env) (w : World) (g : Group)
    (d : Bytes) (hpart : w.nvm_parts.part g = some d) (hsize : L.sizeof g ≤ d.length) :
    (restore_state L e w).trace =
      w.trace ++
        Call.LoRaMacMibSetRequestConfirm (.MIB_NVM_CTXS (restore_block L w.nvm_parts)) ::
          (if e.ctxs_set_rc ≠ LORAMAC_STATUS_OK then
            [Call.log_error "LoRaMac: Error while restoring NVM state"] else []) ∧
    (restore_block L w.nvm_parts).group g = d.take (L.sizeof g) := by
  refine ⟨restore_state_trace L e w, ?_⟩
  rw [restore_block_group, hpart, restore_group_large _ _ hsize]

/-- Claim C4 as amended, at the corrupt MacGroup2 partition. -/
theorem restore_state_copies_unchecked_witness :
    exPartsCorrupt.part .MacGroup2 = some [5, 0, 0, 0, 1, 2, 3, 4] ∧
    (restore_block exLayout exPartsCorrupt).group .MacGroup2 =
      [5, 0, 0, 0, 1, 2, 3, 4].take (exLayout.sizeof .MacGroup2) :=
  ⟨rfl,
    (restore_state_copies_unchecked exLayout exEnv { exWorld with nvm_parts := exPartsCorrupt }
      .MacGroup2 [5, 0, 0, 0, 1, 2, 3, 4] rfl (by decide)).2⟩

/-! ## Join -/

/-- Claim C5. While a join is active (`joins_left != 0`), `lrw_join` returns
`LORAMAC_STATUS_BUSY` for every `retries` and every activation mode, and
leaves the world as it was: no call is made, `joins_left` keeps its value. -/
theorem lrw_join_busy (L : Layout) (e : Env) (retries : Nat) (w : World)
    (hactive : w.joins_left ≠ 0) :
    lrw_join L e retries w = (LORAMAC_STATUS_BUSY, w) := by
  simp [lrw_join, hactive]

/-- Claim C5 at the example: a second join during a join with two attempts
left. -/
theorem lrw_join_busy_witness :
    (exJoining 2).joins_left ≠ 0 ∧
    lrw_join exLayout exEnv 3 (exJoining 2) = (LORAMAC_STATUS_BUSY, exJoining 2) :=
  ⟨by decide, lrw_join_busy exLayout exEnv 3 (exJoining 2) (by decide)⟩

/-- Claim C6. With no join active and the engine in ABP mode, `lrw_join` with
`retries != 0` returns `LORAMAC_STATUS_PARAMETER_INVALID`; its only call is the
read of `MIB_NETWORK_ACTIVATION`, so no MLME request is submitted, and
`joins_left` stays 0. -/
theorem lrw_join_abp_retries (L : Layout) (e : Env) (retries : Nat) (w : World)
    (hidle : w.joins_left = 0)
    (habp : e.NetworkActivation = .ACTIVATION_TYPE_ABP)
    (hretries : retries ≠ 0) :
    (lrw_join L e retries w).1 = LORAMAC_STATUS_PARAMETER_INVALID ∧
    (lrw_join L e retries w).2.trace =
      w.trace ++ [Call.LoRaMacMibGetRequestConfirm .MIB_NETWORK_ACTIVATION] ∧
    (∀ req, Call.LoRaMacMlmeRequest req ∉
      (lrw_join L e retries w).2.trace.drop w.trace.length) ∧
    (lrw_join L e retries w).2.joins_left = 0 := by
  simp [lrw_join, hidle, habp, hretries, World.call]

/-- Claim C6 at the example: `lrw_join(2)` in ABP mode. -/
theorem lrw_join_abp_retries_witness :
    exWorld.joins_left = 0 ∧
    (lrw_join exLayout exEnvAbp 2 exWorld).1 = LORAMAC_STATUS_PARAMETER_INVALID ∧
    (lrw_join exLayout exEnvAbp 2 exWorld).2.joins_left = 0 :=
  ⟨rfl, (lrw_join_abp_retries exLayout exEnvAbp 2 exWorld rfl rfl (by decide)).1,
    (lrw_join_abp_retries exLayout exEnvAbp 2 exWorld rfl rfl (by decide)).2.2.2⟩

/-- Claim C8 fails on the code: a confirm with status RX2-timeout arrives while
`joins_left` is 1, which is greater than 0; the handler decrements the counter
to 0, does not arm the timer, and stops the join with `CMD_JOIN_FAILED`. -/
theorem last_timeout_stops_join :
    (0 : Int) < (exJoining 1).joins_left ∧
    (join_callback_otaa exLayout exEnv
      (join_confirm .LORAMAC_EVENT_INFO_STATUS_RX2_TIMEOUT) (exJoining 1)).joins_left = 0 ∧
    Call.TimerStart ∉ (join_callback_otaa exLayout exEnv
      (join_confirm .LORAMAC_EVENT_INFO_STATUS_RX2_TIMEOUT) (exJoining 1)).trace ∧
    (join_callback_otaa exLayout exEnv
      (join_confirm .LORAMAC_EVENT_INFO_STATUS_RX2_TIMEOUT) (exJoining 1)).trace =
      [Call.TimerStop, Call.cmd_event .CMD_EVENT_JOIN .CMD_JOIN_FAILED,
       Call.sync_device_class, Call.LoRaMacMibGetRequestConfirm .MIB_DEVICE_CLASS] := by
  decide

/-- Claim C8 as amended. A confirm with status RX2-timeout that arrives while
`joins_left` is greater than 1 makes `join_callback_otaa` decrement the counter
by one and arm the retry timer with the delay `randr(100, 500)`, which lies in
[100, 500] when `randr` keeps to its range; nothing else happens, so the join
is not stopped and no join notification is emitted. -/
theorem timeout_with_retries_left (L : Layout) (e : Env) (param : MlmeConfirm_t) (w : World)
    (hleft : 1 < w.joins_left)
    (hstatus : param.Status = .LORAMAC_EVENT_INFO_STATUS_RX2_TIMEOUT)
    (hrand : 100 ≤ e.randr 100 500 ∧ e.randr 100 500 ≤ 500) :
    ∃ delay, 100 ≤ delay ∧ delay ≤ 500 ∧
      join_callback_otaa L e param w =
        { w with
          joins_left := w.joins_left - 1
          trace := w.trace ++ [Call.TimerSetValue delay, Call.TimerStart] } := by
  refine ⟨e.randr 100 500, hrand.1, hrand.2, ?_⟩
  have h1 : w.joins_left - 1 > 0 := by omega
  have h2 : e.randr 100 500 < 4294967296 := by omega
  simp [join_callback_otaa, h1, hstatus, h2, World.call]

/-- Claim C8 as amended, at the example with two attempts left. -/
theorem timeout_with_retries_left_witness :
    (1 : Int) < (exJoining 2).joins_left ∧
    ∃ delay, 100 ≤ delay ∧ delay ≤ 500 ∧
      join_callback_otaa exLayout exEnv
        (join_confirm .LORAMAC_EVENT_INFO_STATUS_RX2_TIMEOUT) (exJoining 2) =
        { exJoining 2 with
          joins_left := (exJoining 2).joins_left - 1
          trace := (exJoining 2).trace ++ [Call.TimerSetValue delay, Call.TimerStart] } :=
  ⟨by decide,
    timeout_with_retries_left exLayout exEnv
      (join_confirm .LORAMAC_EVENT_INFO_STATUS_RX2_TIMEOUT) (exJoining 2)
      (by decide) rfl (by decide)⟩

/-! ### The retry rounds -/

theorem save_group_joins_left (L : Layout) (e : Env) (s : LoRaMacNvmData_t) (g : Group)
    (w : World) : (save_group L e s g w).joins_left = w.joins_left := by
  unfold save_group
  cases hb : e.LoRaMacIsBusy <;>
    cases hr : (part_write e.flash_ok (w.nvm_parts.part g) 0 (s.group g) (L.sizeof g)).1 <;>
    simp [hr, World.call]

theorem save_group_join_view (L : Layout) (e : Env) (s : LoRaMacNvmData_t) (g : Group)
    (w : World) : join_view (save_group L e s g w).trace = join_view w.trace := by
  unfold save_group
  cases hb : e.LoRaMacIsBusy <;>
    cases hr : (part_write e.flash_ok (w.nvm_parts.part g) 0 (s.group g) (L.sizeof g)).1 <;>
    simp [hr, World.call, join_view, List.filter_append, join_call]

theorem save_state_joins_left (L : Layout) (e : Env) (w : World) :
    (save_state L e w).joins_left = w.joins_left := by
  rw [save_state_eq]
  by_cases h0 : w.nvm_flags = LORAMAC_NVM_NOTIFY_FLAG_NONE
  · simp [h0]
  · simp only [h0, if_false]
    cases first_dirty w.nvm_flags with
    | none => simp [World.call]
    | some g => simp [save_group_joins_left, World.call]

theorem save_state_join_view (L : Layout) (e : Env) (w : World) :
    join_view (save_state L e w).trace = join_view w.trace := by
  rw [save_state_eq]
  by_cases h0 : w.nvm_flags = LORAMAC_NVM_NOTIFY_FLAG_NONE
  · simp [h0]
  · simp only [h0, if_false]
    cases first_dirty w.nvm_flags with
    | none => simp [World.call, join_view, List.filter_append, join_call]
    | some g =>
      simp only [save_group_join_view]
      simp [World.call, join_view, List.filter_append, join_call]

theorem or_retransmit_join (x : Nat) : (x ||| RETRANSMIT_JOIN) &&& RETRANSMIT_JOIN ≠ 0 := by
  have h : RETRANSMIT_JOIN = 2 ^ 0 := rfl
  rw [h, Nat.and_two_pow]
  simp [Nat.testBit_or]

/-- A retry round entered with at least two attempts left consumes one attempt;
of the calls of a join it makes three: the timer is set and started, and the
join request is submitted again. -/
theorem timeout_round_spec (L : Layout) (ec ep : Env) (w : World)
    (hmode : ec.NetworkActivation ≠ .ACTIVATION_TYPE_ABP)
    (hacc : ep.LoRaMacMlmeRequest = LORAMAC_STATUS_OK)
    (hleft : 1 < w.joins_left) :
    (timeout_round L ec ep w).joins_left = w.joins_left - 1 ∧
    join_view (timeout_round L ec ep w).trace =
      join_view w.trace ++
        [Call.TimerSetValue (ec.randr 100 500 % 2 ^ 32), Call.TimerStart,
          Call.LoRaMacMlmeRequest (.Join .ACTIVATION_TYPE_OTAA DR_0)] := by
  have hl : w.joins_left - 1 > 0 := by omega
  have hev := or_retransmit_join w.events
  unfold timeout_round lrw_process
  simp only [save_state_joins_left, save_state_join_view]
  simp only [mlme_confirm, join_confirm, join_callback, join_callback_otaa, on_join_timer,
    retransmit_join, send_join, World.call, hmode, hacc, hl, hev, if_false, if_true,
    List.foldl_nil, ne_eq, not_true_eq_false, not_false_eq_true, and_self, true_and]
  cases L.Radio_IrqProcess <;> simp [join_view, List.filter_append, join_call]

/-- The join calls of the first `n` retry rounds. -/
theorem timeout_rounds_spec (L : Layout) (ec ep : Nat → Env) (w : World)
    (hmode : ∀ k, (ec k).NetworkActivation ≠ .ACTIVATION_TYPE_ABP)
    (hacc : ∀ k, (ep k).LoRaMacMlmeRequest = LORAMAC_STATUS_OK)
    (n : Nat) (hleft : (n : Int) < w.joins_left) :
    (timeout_rounds L ec ep n w).joins_left = w.joins_left - n ∧
    join_view (timeout_rounds L ec ep n w).trace =
      join_view w.trace ++
        (List.range n).flatMap fun k =>
          [Call.TimerSetValue ((ec k).randr 100 500 % 2 ^ 32), Call.TimerStart,
            Call.LoRaMacMlmeRequest (.Join .ACTIVATION_TYPE_OTAA DR_0)] := by
  induction n with
  | zero => simp [timeout_rounds]
  | succ n ih =>
    have ih' := ih (by push_cast at hleft; omega)
    have hstep := timeout_round_spec L (ec n) (ep n) (timeout_rounds L ec ep n w)
      (hmode n) (hacc n) (by rw [ih'.1]; push_cast at hleft; omega)
    simp only [timeout_rounds]
    refine ⟨by rw [hstep.1, ih'.1]; push_cast; omega, ?_⟩
    rw [hstep.2, ih'.2, List.range_succ, List.flatMap_append]
    simp

theorem timer_arms_join_view (t : List Call) : timer_arms (join_view t) = timer_arms t := by
  unfold timer_arms join_view
  rw [List.filter_filter]
  congr 2
  funext c
  cases c <;> simp [join_call]

theorem join_notifications_join_view (t : List Call) :
    join_notifications (join_view t) = join_notifications t := by
  unfold join_notifications join_view
  rw [List.filter_filter]
  congr 1
  funext c
  cases c with
  | cmd_event k _ => cases k <;> simp [join_call]
  | _ => simp [join_call]

theorem sync_calls_join_view (t : List Call) : sync_calls (join_view t) = sync_calls t := by
  unfold sync_calls join_view
  rw [List.filter_filter]
  congr 2
  funext c
  cases c <;> simp [join_call]

theorem timer_arms_append (a b : List Call) :
    timer_arms (a ++ b) = timer_arms a + timer_arms b := by
  simp [timer_arms, List.filter_append]

theorem join_notifications_append (a b : List Call) :
    join_notifications (a ++ b) = join_notifications a ++ join_notifications b := by
  simp [join_notifications, List.filter_append]

theorem sync_calls_append (a b : List Call) :
    sync_calls (a ++ b) = sync_calls a + sync_calls b := by
  simp [sync_calls, List.filter_append]

theorem timer_arms_rounds (d : Nat → Nat) (n : Nat) :
    timer_arms ((List.range n).flatMap fun k =>
      [Call.TimerSetValue (d k), Call.TimerStart,
        Call.LoRaMacMlmeRequest (.Join .ACTIVATION_TYPE_OTAA DR_0)]) = n := by
  induction n with
  | zero => rfl
  | succ n ih =>
    rw [List.range_succ, List.flatMap_append, timer_arms_append, ih]
    simp [timer_arms]

theorem join_notifications_rounds (d : Nat → Nat) (n : Nat) :
    join_notifications ((List.range n).flatMap fun k =>
      [Call.TimerSetValue (d k), Call.TimerStart,
        Call.LoRaMacMlmeRequest (.Join .ACTIVATION_TYPE_OTAA DR_0)]) = [] := by
  induction n with
  | zero => rfl
  | succ n ih =>
    rw [List.range_succ, List.flatMap_append, join_notifications_append, ih]
    simp [join_notifications]

theorem sync_calls_rounds (d : Nat → Nat) (n : Nat) :
    sync_calls ((List.range n).flatMap fun k =>
      [Call.TimerSetValue (d k), Call.TimerStart,
        Call.LoRaMacMlmeRequest (.Join .ACTIVATION_TYPE_OTAA DR_0)]) = 0 := by
  induction n with
  | zero => rfl
  | succ n ih =>
    rw [List.range_succ, List.flatMap_append, sync_calls_append, ih]
    simp [sync_calls]

/-- An accepted `lrw_join(r)` from idle in OTAA mode, `r <= 15`: the session
gets `r + 1` attempts and the join request is submitted. -/
theorem lrw_join_otaa_spec (L : Layout) (e : Env) (r : Nat) (w : World)
    (hr : r ≤ 15) (hidle : w.joins_left = 0)
    (hmode : e.NetworkActivation ≠ .ACTIVATION_TYPE_ABP) :
    (lrw_join L e r w).1 = e.LoRaMacMlmeRequest ∧
    (lrw_join L e r w).2.joins_left = (r : Int) + 1 ∧
    join_view (lrw_join L e r w).2.trace =
      join_view w.trace ++ [Call.LoRaMacMlmeRequest (.Join .ACTIVATION_TYPE_OTAA DR_0)] := by
  have hr' : ¬ r > 15 := by omega
  unfold lrw_join
  simp only [hidle, ne_eq, not_true_eq_false, if_false, hmode, hr', send_join]
  cases L.RESTORE_CHMASK_AFTER_JOIN <;>
    simp [World.call, save_chmask, join_view, List.filter_append, join_call]

theorem sync_device_class_spec (e : Env) (w : World) :
    (sync_device_class e w).2.joins_left = w.joins_left ∧
    join_view (sync_device_class e w).2.trace = join_view w.trace ++ [Call.sync_device_class] := by
  unfold sync_device_class
  by_cases h1 : e.class_get_rc = LORAMAC_STATUS_OK <;>
    by_cases h2 : e.Class = e.sysconf_device_class <;>
    simp [h1, h2, World.call, join_view, List.filter_append, join_call]

/-- The calls of a join that `stop_join` makes: the timer is stopped, the
result is notified, the device class is reapplied once. -/
theorem stop_join_spec (L : Layout) (e : Env) (status : cmd_code_t) (w : World) :
    (stop_join L e status w).joins_left = 0 ∧
    join_view (stop_join L e status w).trace =
      join_view w.trace ++
        [Call.TimerStop, Call.cmd_event .CMD_EVENT_JOIN status, Call.sync_device_class] := by
  have hs1 := fun w' => (sync_device_class_spec e w').1
  have hs2 := fun w' => (sync_device_class_spec e w').2
  have hv : ∀ (w' : World) (c : Call), join_view (w'.call c).trace =
      join_view w'.trace ++ join_view [c] := fun w' c => by
    simp [World.call, join_view, List.filter_append]
  have hj : ∀ (w' : World) (c : Call), (w'.call c).joins_left = w'.joins_left := fun _ _ => rfl
  unfold stop_join
  cases L.RESTORE_CHMASK_AFTER_JOIN <;>
    by_cases ha : e.NetworkActivation = .ACTIVATION_TYPE_OTAA <;>
    simp only [ha, if_true, if_false, restore_chmask, hv, hj, hs1, hs2, Bool.false_eq_true] <;>
    simp [join_view, join_call]

/-- A confirm with status OK in OTAA mode stops the join with
`CMD_JOIN_SUCCEEDED`. -/
theorem confirm_ok_spec (L : Layout) (e : Env) (w : World)
    (hmode : e.NetworkActivation ≠ .ACTIVATION_TYPE_ABP) :
    (mlme_confirm L e (join_confirm .LORAMAC_EVENT_INFO_STATUS_OK) w).joins_left = 0 ∧
    join_view (mlme_confirm L e (join_confirm .LORAMAC_EVENT_INFO_STATUS_OK) w).trace =
      join_view w.trace ++
        [Call.TimerStop, Call.cmd_event .CMD_EVENT_JOIN .CMD_JOIN_SUCCEEDED,
          Call.sync_device_class] := by
  simp only [mlme_confirm, join_confirm, join_callback, join_callback_otaa, hmode, if_false,
    reduceCtorEq, and_false, if_true]
  refine ⟨(stop_join_spec _ _ _ _).1, ?_⟩
  rw [(stop_join_spec _ _ _ _).2]
  simp [World.call, join_view, List.filter_append, join_call]

/-- Claim C7. For `0 <= r <= 15`, from idle in OTAA mode and with every join
submission accepted: `lrw_join(r)`, then `r` confirms with status RX2-timeout,
each followed by the expiry of the retry timer and the retransmission in
`lrw_process`, then one confirm with status OK. The retry timer is armed
exactly `r` times, exactly one join notification is emitted and it is
`CMD_JOIN_SUCCEEDED`, `sync_device_class` is entered exactly once, and
`joins_left` ends at 0. -/
theorem otaa_join_retries_then_success (L : Layout) (e0 : Env) (ec ep : Nat → Env) (eN : Env)
    (r : Nat) (w : World)
    (hr : r ≤ 15) (hidle : w.joins_left = 0)
    (hmode0 : e0.NetworkActivation ≠ .ACTIVATION_TYPE_ABP)
    (hacc0 : e0.LoRaMacMlmeRequest = LORAMAC_STATUS_OK)
    (hmode : ∀ k, (ec k).NetworkActivation ≠ .ACTIVATION_TYPE_ABP)
    (hacc : ∀ k, (ep k).LoRaMacMlmeRequest = LORAMAC_STATUS_OK)
    (hmodeN : eN.NetworkActivation ≠ .ACTIVATION_TYPE_ABP) :
    (lrw_join L e0 r w).1 = LORAMAC_STATUS_OK ∧
    timer_arms (join_then_success L e0 ec ep eN r w).trace = timer_arms w.trace + r ∧
    join_notifications (join_then_success L e0 ec ep eN r w).trace =
      join_notifications w.trace ++ [Call.cmd_event .CMD_EVENT_JOIN .CMD_JOIN_SUCCEEDED] ∧
    sync_calls (join_then_success L e0 ec ep eN r w).trace = sync_calls w.trace + 1 ∧
    (join_then_success L e0 ec ep eN r w).joins_left = 0 := by
  obtain ⟨hj1, hj2, hj3⟩ := lrw_join_otaa_spec L e0 r w hr hidle hmode0
  obtain ⟨_, hr3⟩ := timeout_rounds_spec L ec ep (lrw_join L e0 r w).2 hmode hacc r
    (by rw [hj2]; omega)
  obtain ⟨hc1, hc2⟩ := confirm_ok_spec L eN (timeout_rounds L ec ep r (lrw_join L e0 r w).2)
    hmodeN
  have hview : join_view (join_then_success L e0 ec ep eN r w).trace =
      join_view w.trace ++ [Call.LoRaMacMlmeRequest (.Join .ACTIVATION_TYPE_OTAA DR_0)] ++
        ((List.range r).flatMap fun k =>
          [Call.TimerSetValue ((ec k).randr 100 500 % 2 ^ 32), Call.TimerStart,
            Call.LoRaMacMlmeRequest (.Join .ACTIVATION_TYPE_OTAA DR_0)]) ++
        [Call.TimerStop, Call.cmd_event .CMD_EVENT_JOIN .CMD_JOIN_SUCCEEDED,
          Call.sync_device_class] := by
    unfold join_then_success
    rw [hc2, hr3, hj3]
  refine ⟨hj1.trans hacc0, ?_, ?_, ?_, hc1⟩
  · rw [← timer_arms_join_view, hview, timer_arms_append, timer_arms_append,
      timer_arms_append, timer_arms_rounds, timer_arms_join_view]
    simp [timer_arms]
  · rw [← join_notifications_join_view, hview, join_notifications_append,
      join_notifications_append, join_notifications_append, join_notifications_rounds,
      join_notifications_join_view]
    simp [join_notifications]
  · rw [← sync_calls_join_view, hview, sync_calls_append, sync_calls_append,
      sync_calls_append, sync_calls_rounds, sync_calls_join_view]
    simp [sync_calls]

/-- Claim C7 at the case of the specification, `r = 3`, from the idle world of
the examples: three retries, one `CMD_JOIN_SUCCEEDED`, one class
reapplication. -/
theorem otaa_join_retries_then_success_witness :
    (3 : Nat) ≤ 15 ∧ exWorld.joins_left = 0 ∧
    timer_arms (join_then_success exLayout exEnv (fun _ => exEnv) (fun _ => exEnv) exEnv 3
      exWorld).trace = timer_arms exWorld.trace + 3 ∧
    join_notifications (join_then_success exLayout exEnv (fun _ => exEnv) (fun _ => exEnv)
      exEnv 3 exWorld).trace =
      join_notifications exWorld.trace ++
        [Call.cmd_event .CMD_EVENT_JOIN .CMD_JOIN_SUCCEEDED] ∧
    sync_calls (join_then_success exLayout exEnv (fun _ => exEnv) (fun _ => exEnv) exEnv 3
      exWorld).trace = sync_calls exWorld.trace + 1 ∧
    (join_then_success exLayout exEnv (fun _ => exEnv) (fun _ => exEnv) exEnv 3
      exWorld).joins_left = 0 :=
  ⟨by decide, rfl,
    (otaa_join_retries_then_success exLayout exEnv (fun _ => exEnv) (fun _ => exEnv) exEnv 3
      exWorld (by decide) rfl (by decide) rfl
      (fun _ => show exEnv.NetworkActivation ≠ .ACTIVATION_TYPE_ABP by decide) (fun _ => rfl)
      (by decide)).2⟩

/-! ## Region switch -/

/-- Claim C9. When the requested region is active and equals the region held
in the in-memory MacGroup2, `lrw_set_region` returns -1; its only calls are
`RegionIsActive` and the read of `MIB_NVM_CTXS`, so the engine is not
deinitialized; the seven groups and the dirty-flag set are unchanged. -/
theorem lrw_set_region_unchanged (L : Layout) (e : Env) (region : Nat) (w : World)
    (hactive : e.RegionIsActive (LoRaMacRegion_of_uint L region) = true)
    (hsame : region = Region L w.Nvm) :
    (lrw_set_region L e region w).1 = -1 ∧
    (lrw_set_region L e region w).2.trace =
      w.trace ++ [Call.RegionIsActive (LoRaMacRegion_of_uint L region),
        Call.LoRaMacMibGetRequestConfirm .MIB_NVM_CTXS] ∧
    Call.LoRaMacDeInitialization ∉ (lrw_set_region L e region w).2.trace.drop w.trace.length ∧
    (lrw_set_region L e region w).2.Nvm = w.Nvm ∧
    (lrw_set_region L e region w).2.nvm_flags = w.nvm_flags := by
  simp [lrw_set_region, lrw_get_state, hactive, ← hsame, World.call]

/-- Claim C9 at the example: region 5 is active and is the region in
MacGroup2. -/
theorem lrw_set_region_unchanged_witness :
    exEnv.RegionIsActive (LoRaMacRegion_of_uint exLayout 5) = true ∧
    5 = Region exLayout exWorld.Nvm ∧
    (lrw_set_region exLayout exEnv 5 exWorld).1 = -1 ∧
    (lrw_set_region exLayout exEnv 5 exWorld).2.Nvm = exWorld.Nvm :=
  ⟨by decide, by decide,
    (lrw_set_region_unchanged exLayout exEnv 5 exWorld (by decide) (by decide)).1,
    (lrw_set_region_unchanged exLayout exEnv 5 exWorld (by decide) (by decide)).2.2.2.1⟩

/-- The conversion of the request to `LoRaMacRegion_t`: with a region type of
one byte the request 261 is region 5 for `RegionIsActive`, differs from the
stored region 5 as an `unsigned int`, and so resets the state to region 5. -/
theorem lrw_set_region_converts_request :
    exEnv.RegionIsActive (LoRaMacRegion_of_uint exLayout 261) = true ∧
    (lrw_set_region exLayout exEnv 261 exWorld).1 = LORAMAC_STATUS_OK ∧
    Region exLayout (lrw_set_region exLayout exEnv 261 exWorld).2.Nvm = 5 ∧
    (lrw_set_region exLayout exEnv 261 exWorld).2.nvm_flags = 0x77 := by
  decide

set_option maxRecDepth 100000 in
/-- The conversion of the result of `restore_region` to `LoRaMacRegion_t`: with
an unknown `DEFAULT_ACTIVE_REGION` and no MacGroup2 partition, `region2id`
gives -2 and `LoRaMacInitialization` receives 254. -/
theorem lrw_init_converts_region :
    restore_region { exLayout with DEFAULT_ACTIVE_REGION := some "XX" }
      { exWorld with nvm_parts := { exParts with mac2 := none } } = -2 ∧
    (lrw_init { exLayout with DEFAULT_ACTIVE_REGION := some "XX" } exEnv
      { exWorld with nvm_parts := { exParts with mac2 := none } }).trace.take 2 =
      [Call.TimerInit, Call.LoRaMacInitialization 254] := by
  decide

/-! ## Bytes and fields -/

theorem length_le_encode (n v : Nat) : (le_encode n v).length = n := by
  induction n generalizing v with
  | zero => rfl
  | succ n ih => simp [le_encode, ih]

theorem le_decode_le_encode (n v : Nat) : le_decode (le_encode n v) = v % 256 ^ n := by
  induction n generalizing v with
  | zero => simp [le_encode, le_decode, Nat.mod_one]
  | succ n ih =>
    simp only [le_encode, le_decode, ih]
    rw [pow_succ, Nat.mul_comm (256 ^ n) 256, Nat.mod_mul]

theorem valid_le_encode (n v : Nat) : valid_bytes (le_encode n v) := by
  induction n generalizing v with
  | zero => intro x hx; simp [le_encode] at hx
  | succ n ih =>
    intro x hx
    simp only [le_encode, List.mem_cons] at hx
    rcases hx with rfl | hx
    · exact Nat.mod_lt _ (by decide)
    · exact ih _ x hx

theorem le_decode_lt (b : Bytes) (h : valid_bytes b) : le_decode b < 256 ^ b.length := by
  induction b with
  | nil => simp [le_decode]
  | cons x xs ih =>
    have hx : x < 256 := h x (List.mem_cons_self _ _)
    have hxs := ih (fun y hy => h y (List.mem_cons_of_mem _ hy))
    simp only [le_decode, List.length_cons, pow_succ]
    omega

theorem valid_zeros (n : Nat) : valid_bytes (zeros n) := by
  intro x hx
  rw [zeros, List.mem_replicate] at hx
  omega

theorem valid_append {a b : Bytes} (ha : valid_bytes a) (hb : valid_bytes b) :
    valid_bytes (a ++ b) := by
  intro x hx
  rcases List.mem_append.mp hx with h | h
  · exact ha x h
  · exact hb x h

theorem valid_take {a : Bytes} (ha : valid_bytes a) (n : Nat) : valid_bytes (a.take n) :=
  fun x hx => ha x (List.mem_of_mem_take hx)

theorem valid_drop {a : Bytes} (ha : valid_bytes a) (n : Nat) : valid_bytes (a.drop n) :=
  fun x hx => ha x (List.mem_of_mem_drop hx)

theorem valid_read_field {g : Bytes} (hg : valid_bytes g) (off sz : Nat) :
    valid_bytes (read_field g off sz) :=
  valid_take (valid_drop hg off) sz

theorem valid_write_field {g v : Bytes} (hg : valid_bytes g) (hv : valid_bytes v) (off : Nat) :
    valid_bytes (write_field g off v) :=
  valid_append (valid_append (valid_take hg off) hv) (valid_drop hg _)

theorem length_write_field (g v : Bytes) (off : Nat) (h : off + v.length ≤ g.length) :
    (write_field g off v).length = g.length := by
  simp only [write_field, List.length_append, List.length_take, List.length_drop]
  omega

theorem take_write_field (g v : Bytes) (off : Nat) (h : off ≤ g.length) :
    (write_field g off v).take off = g.take off := by
  unfold write_field
  rw [List.append_assoc, List.take_left']
  simp [h]

theorem read_field_write_field_same (g v : Bytes) (off : Nat) (h : off ≤ g.length) :
    read_field (write_field g off v) off v.length = v := by
  unfold read_field write_field
  rw [List.append_assoc, List.drop_left' (by simp [h]), List.take_left' rfl]

theorem read_field_write_field_before (g v : Bytes) (off off' sz : Nat)
    (h1 : off' + sz ≤ off) (h2 : off ≤ g.length) :
    read_field (write_field g off v) off' sz = read_field g off' sz := by
  unfold read_field write_field
  rw [List.append_assoc, List.drop_append_of_le_length (by simp; omega),
    List.take_append_of_le_length (by simp; omega), List.drop_take, List.take_take]
  congr 1
  omega

/-! ## Checksums -/

theorem crc32_step_lt (x : Nat) (h : x < 2 ^ 32) : crc32_step x < 2 ^ 32 := by
  unfold crc32_step
  apply Nat.xor_lt_two_pow
  · rw [Nat.shiftRight_eq_div_pow]
    exact lt_of_le_of_lt (Nat.div_le_self _ _) h
  · split <;> norm_num

theorem iterate_crc32_step_lt (n x : Nat) (h : x < 2 ^ 32) : crc32_step^[n] x < 2 ^ 32 := by
  induction n with
  | zero => simpa using h
  | succ n ih =>
    rw [Function.iterate_succ_apply']
    exact crc32_step_lt _ ih

theorem Crc32_lt (b : Bytes) (hb : valid_bytes b) : Crc32 b < 2 ^ 32 := by
  have key : ∀ (l : Bytes), valid_bytes l → ∀ acc, acc < 2 ^ 32 →
      l.foldl (fun crc x => crc32_step^[8] (crc ^^^ x)) acc < 2 ^ 32 := by
    intro l
    induction l with
    | nil => intro _ acc h; simpa using h
    | cons x xs ih =>
      intro hl acc h
      have hx : x < 2 ^ 32 := lt_trans (hl x (List.mem_cons_self _ _)) (by norm_num)
      exact ih (fun y hy => hl y (List.mem_cons_of_mem _ hy)) _
        (iterate_crc32_step_lt 8 _ (Nat.xor_lt_two_pow h hx))
  unfold Crc32
  exact Nat.xor_lt_two_pow (key b hb _ (by norm_num)) (by norm_num)

/-- What `update_block_crc` leaves: the bytes before the trailer are kept, the
trailer is their checksum, and the block passes `check_block_crc`. -/
theorem update_block_crc_spec (p : Bytes) (size : Nat) (hlen : p.length = size)
    (h4 : 4 ≤ size) (hv : valid_bytes p) :
    (update_block_crc p size).take (size - 4) = p.take (size - 4) ∧
    trailer (update_block_crc p size) size = Crc32 (p.take (size - 4)) ∧
    check_block_crc (update_block_crc p size) size = true := by
  have hoff : size - 4 ≤ p.length := by omega
  have htake : (update_block_crc p size).take (size - 4) = p.take (size - 4) :=
    take_write_field _ _ _ hoff
  have htr : trailer (update_block_crc p size) size = Crc32 (p.take (size - 4)) := by
    have h := read_field_write_field_same p (le_encode 4 (Crc32 (p.take (size - 4))))
      (size - 4) hoff
    rw [length_le_encode] at h
    unfold trailer update_block_crc
    rw [h, le_decode_le_encode]
    exact Nat.mod_eq_of_lt (by
      have := Crc32_lt _ (valid_take hv (size - 4))
      norm_num at this ⊢
      exact this)
  refine ⟨htake, htr, ?_⟩
  unfold check_block_crc
  rw [htake, htr]
  simp

/-! ## Region switch to a new region -/

/-- The six flags that `lrw_set_region` marks. -/
theorem set_region_flags :
    (LORAMAC_NVM_NOTIFY_FLAG_CRYPTO ||| LORAMAC_NVM_NOTIFY_FLAG_MAC_GROUP1 |||
      LORAMAC_NVM_NOTIFY_FLAG_MAC_GROUP2 ||| LORAMAC_NVM_NOTIFY_FLAG_REGION_GROUP1 |||
      LORAMAC_NVM_NOTIFY_FLAG_REGION_GROUP2 ||| LORAMAC_NVM_NOTIFY_FLAG_CLASS_B) = 0x77 := by
  decide

/-- The result of a successful `lrw_set_region` to a new active region. -/
theorem lrw_set_region_ok (L : Layout) (e : Env) (region : Nat) (w : World)
    (hactive : e.RegionIsActive (LoRaMacRegion_of_uint L region) = true)
    (hnew : region ≠ Region L w.Nvm)
    (hdeinit : e.LoRaMacDeInitialization = LORAMAC_STATUS_OK) :
    (lrw_set_region L e region w).1 = LORAMAC_STATUS_OK ∧
    (lrw_set_region L e region w).2.Nvm =
      { w.Nvm with
        Crypto := update_block_crc
          (write_field (e.LoRaMacCryptoInit w.Nvm.Crypto) L.offDevNonce
            (le_encode 2 (DevNonce L w.Nvm))) L.szCrypto
        MacGroup1 := zeros L.szMacGroup1
        MacGroup2 := write_field
          (write_field (zeros L.szMacGroup2) L.offRegion (le_encode L.szRegion region))
          (L.szMacGroup2 - 4)
          (le_encode 4 (Crc32 (read_field
            (write_field (zeros L.szMacGroup2) L.offRegion (le_encode L.szRegion region))
            L.offRegion L.szRegion)))
        RegionGroup1 := zeros L.szRegionGroup1
        RegionGroup2 := zeros L.szRegionGroup2
        ClassB := zeros L.szClassB } ∧
    (lrw_set_region L e region w).2.nvm_flags = w.nvm_flags ||| 0x77 := by
  simp [lrw_set_region, lrw_get_state, hactive, hnew, hdeinit, World.call, state_changed,
    set_region_flags]

/-- Claim C11. After a successful `lrw_set_region` to a new active region the
`DevNonce` of the Crypto group has its value from before the call, and the
Crypto group passes the whole-block check: its trailer is the `Crc32` of the
group without its 4-byte trailer. The layout places `DevNonce` before the
trailer, memory holds bytes, and `LoRaMacCryptoInit` leaves a group of the
size of the Crypto group. -/
theorem set_region_keeps_nonce (L : Layout) (e : Env) (region : Nat) (w : World)
    (hactive : e.RegionIsActive (LoRaMacRegion_of_uint L region) = true)
    (hnew : region ≠ Region L w.Nvm)
    (hdeinit : e.LoRaMacDeInitialization = LORAMAC_STATUS_OK)
    (hlayout : L.offDevNonce + 2 + 4 ≤ L.szCrypto)
    (hold : valid_bytes w.Nvm.Crypto)
    (hinit_len : (e.LoRaMacCryptoInit w.Nvm.Crypto).length = L.szCrypto)
    (hinit : valid_bytes (e.LoRaMacCryptoInit w.Nvm.Crypto)) :
    (lrw_set_region L e region w).1 = LORAMAC_STATUS_OK ∧
    DevNonce L (lrw_set_region L e region w).2.Nvm = DevNonce L w.Nvm ∧
    trailer (lrw_set_region L e region w).2.Nvm.Crypto L.szCrypto =
      Crc32 ((lrw_set_region L e region w).2.Nvm.Crypto.take (L.szCrypto - 4)) ∧
    check_block_crc (lrw_set_region L e region w).2.Nvm.Crypto L.szCrypto = true := by
  obtain ⟨hrc, hnvm, _⟩ := lrw_set_region_ok L e region w hactive hnew hdeinit
  have hlen1 : (write_field (e.LoRaMacCryptoInit w.Nvm.Crypto) L.offDevNonce
      (le_encode 2 (DevNonce L w.Nvm))).length = L.szCrypto := by
    rw [length_write_field _ _ _ (by rw [length_le_encode]; omega), hinit_len]
  have hv1 : valid_bytes (write_field (e.LoRaMacCryptoInit w.Nvm.Crypto) L.offDevNonce
      (le_encode 2 (DevNonce L w.Nvm))) :=
    valid_write_field hinit (valid_le_encode _ _) _
  obtain ⟨htake, htr, hchk⟩ := update_block_crc_spec _ L.szCrypto hlen1 (by omega) hv1
  rw [hnvm]
  refine ⟨hrc, ?_, ?_, hchk⟩
  · have hsame := read_field_write_field_same (e.LoRaMacCryptoInit w.Nvm.Crypto)
      (le_encode 2 (DevNonce L w.Nvm)) L.offDevNonce (by omega)
    rw [length_le_encode] at hsame
    have hlt : DevNonce L w.Nvm < 256 ^ 2 := by
      have h1 := le_decode_lt _ (valid_read_field hold L.offDevNonce 2)
      have h2 : (read_field w.Nvm.Crypto L.offDevNonce 2).length ≤ 2 := by
        simp [read_field, List.length_take]
      exact lt_of_lt_of_le h1 (Nat.pow_le_pow_right (by decide) h2)
    show le_decode (read_field (update_block_crc _ L.szCrypto) L.offDevNonce 2) = _
    unfold update_block_crc
    rw [read_field_write_field_before _ _ _ _ _ (by omega) (by omega), hsame,
      le_decode_le_encode, Nat.mod_eq_of_lt hlt]
  · rw [htr]
    exact congrArg Crc32 htake.symm

/-- Claim C11 at the example: the switch from region 5 to region 7 keeps the
`DevNonce` 0x0107. -/
theorem set_region_keeps_nonce_witness :
    exEnv.RegionIsActive (LoRaMacRegion_of_uint exLayout 7) = true ∧
    7 ≠ Region exLayout exWorld.Nvm ∧
    DevNonce exLayout (lrw_set_region exLayout exEnv 7 exWorld).2.Nvm = 0x0107 ∧
    check_block_crc (lrw_set_region exLayout exEnv 7 exWorld).2.Nvm.Crypto exLayout.szCrypto
      = true :=
  ⟨by decide, by decide,
    (set_region_keeps_nonce exLayout exEnv 7 exWorld (by decide) (by decide) rfl (by decide)
      (by simp [valid_bytes, exWorld, exNvm]) (by simp [exEnv, zeros, exLayout, exWorld, exNvm])
      (valid_zeros _)).2.1,
    (set_region_keeps_nonce exLayout exEnv 7 exWorld (by decide) (by decide) rfl (by decide)
      (by simp [valid_bytes, exWorld, exNvm]) (by simp [exEnv, zeros, exLayout, exWorld, exNvm])
      (valid_zeros _)).2.2.2⟩

theorem write_field_zeros (n off : Nat) (v : Bytes) (h : off + v.length ≤ n) :
    write_field (zeros n) off v = zeros off ++ v ++ zeros (n - (off + v.length)) := by
  have h1 : min off n = off := Nat.min_eq_left (by omega)
  simp [write_field, zeros, List.take_replicate, List.drop_replicate, h1]

/-- The MacGroup2 that `lrw_set_region` leaves, spelled out: zero bytes, the
region, zero bytes, the checksum of the region field. -/
theorem set_region_mac2 (n off szR region : Nat) (h : off + szR + 4 ≤ n) :
    write_field (write_field (zeros n) off (le_encode szR region)) (n - 4)
        (le_encode 4 (Crc32 (read_field (write_field (zeros n) off (le_encode szR region))
          off szR))) =
      zeros off ++ le_encode szR region ++ zeros (n - 4 - (off + szR)) ++
        le_encode 4 (Crc32 (le_encode szR region)) := by
  have hsame := read_field_write_field_same (zeros n) (le_encode szR region) off
    (by simp [zeros]; omega)
  rw [length_le_encode] at hsame
  rw [hsame, write_field_zeros _ _ _ (by rw [length_le_encode]; omega), length_le_encode]
  have hsplit : zeros (n - (off + szR)) = zeros (n - 4 - (off + szR)) ++ zeros 4 := by
    simp only [zeros, ← List.replicate_add]
    congr 1
    omega
  have hlen : (zeros off ++ le_encode szR region ++ zeros (n - 4 - (off + szR))).length
      = n - 4 := by
    simp [zeros, length_le_encode]
    omega
  rw [hsplit, ← List.append_assoc]
  unfold write_field
  rw [List.take_left' hlen, List.drop_eq_nil_of_le (by
    rw [length_le_encode, List.length_append, hlen]; simp [zeros])]
  simp

/-- Claim C12. Region round trip: after a successful `lrw_set_region(r)` to a
new active region `r`, the in-memory MacGroup2 consists of zero bytes except
for its `Region` field, which is `r`, and its trailer, which is the `Crc32` of
the `Region` field alone; and `restore_region`, reading a partition that holds
exactly these bytes, returns `r`. The layout places `Region` before the
trailer, and `r` fits a `LoRaMacRegion_t` and an `int`. -/
theorem set_region_round_trip (L : Layout) (e : Env) (region : Nat) (w w2 : World)
    (hactive : e.RegionIsActive (LoRaMacRegion_of_uint L region) = true)
    (hnew : region ≠ Region L w.Nvm)
    (hdeinit : e.LoRaMacDeInitialization = LORAMAC_STATUS_OK)
    (hlayout : L.offRegion + L.szRegion + 4 ≤ L.szMacGroup2)
    (hfit : region < 256 ^ L.szRegion)
    (hint : region < 2 ^ 31)
    (hflash : w2.nvm_parts.mac2 = some (lrw_set_region L e region w).2.Nvm.MacGroup2) :
    (lrw_set_region L e region w).1 = LORAMAC_STATUS_OK ∧
    (lrw_set_region L e region w).2.Nvm.MacGroup2 =
      zeros L.offRegion ++ le_encode L.szRegion region ++
        zeros (L.szMacGroup2 - 4 - (L.offRegion + L.szRegion)) ++
        le_encode 4 (Crc32 (le_encode L.szRegion region)) ∧
    Region L (lrw_set_region L e region w).2.Nvm = region ∧
    trailer (lrw_set_region L e region w).2.Nvm.MacGroup2 L.szMacGroup2 =
      Crc32 (read_field (lrw_set_region L e region w).2.Nvm.MacGroup2 L.offRegion L.szRegion) ∧
    restore_region L w2 = (region : Int) := by
  obtain ⟨hrc, hnvm, _⟩ := lrw_set_region_ok L e region w hactive hnew hdeinit
  have hl1 : (write_field (zeros L.szMacGroup2) L.offRegion
      (le_encode L.szRegion region)).length = L.szMacGroup2 := by
    rw [length_write_field _ _ _ (by rw [length_le_encode]; simp [zeros]; omega)]
    simp [zeros]
  have hr1 := read_field_write_field_same (zeros L.szMacGroup2) (le_encode L.szRegion region)
    L.offRegion (by simp [zeros]; omega)
  rw [length_le_encode] at hr1
  have hm2 : (lrw_set_region L e region w).2.Nvm.MacGroup2 =
      write_field (write_field (zeros L.szMacGroup2) L.offRegion (le_encode L.szRegion region))
        (L.szMacGroup2 - 4) (le_encode 4 (Crc32 (le_encode L.szRegion region))) := by
    rw [hnvm, hr1]
  have hreg : read_field (lrw_set_region L e region w).2.Nvm.MacGroup2 L.offRegion L.szRegion
      = le_encode L.szRegion region := by
    rw [hm2, read_field_write_field_before _ _ _ _ _ (by omega) (by omega), hr1]
  have htr : trailer (lrw_set_region L e region w).2.Nvm.MacGroup2 L.szMacGroup2 =
      Crc32 (le_encode L.szRegion region) := by
    have h := read_field_write_field_same
      (write_field (zeros L.szMacGroup2) L.offRegion (le_encode L.szRegion region))
      (le_encode 4 (Crc32 (le_encode L.szRegion region))) (L.szMacGroup2 - 4) (by omega)
    rw [length_le_encode] at h
    unfold trailer
    rw [hm2, h, le_decode_le_encode]
    exact Nat.mod_eq_of_lt (by
      have := Crc32_lt _ (valid_le_encode L.szRegion region)
      norm_num at this ⊢
      exact this)
  have hlen : (lrw_set_region L e region w).2.Nvm.MacGroup2.length = L.szMacGroup2 := by
    rw [hm2, length_write_field _ _ _ (by rw [length_le_encode]; omega), hl1]
  have hval : Region L (lrw_set_region L e region w).2.Nvm = region := by
    unfold Region
    rw [hreg, le_decode_le_encode, Nat.mod_eq_of_lt hfit]
  refine ⟨hrc, ?_, hval, by rw [htr, hreg], ?_⟩
  · rw [hnvm]
    exact set_region_mac2 _ _ _ _ hlayout
  · have h32 : region % 2 ^ 32 = region := Nat.mod_eq_of_lt (by omega)
    unfold restore_region
    rw [hflash]
    simp only [part_mmap, Option.map_some', hlen, lt_irrefl, if_false, htr, hreg, beq_self_eq_true,
      Bool.or_true, if_true, le_decode_le_encode, Nat.mod_eq_of_lt hfit, int_of_region, h32,
      hint]

/-- Claim C12 at the example: after the switch from region 5 to region 7 a
MacGroup2 partition with the bytes of the in-memory group restores region 7. -/
theorem set_region_round_trip_witness :
    exEnv.RegionIsActive (LoRaMacRegion_of_uint exLayout 7) = true ∧
    7 ≠ Region exLayout exWorld.Nvm ∧
    (lrw_set_region exLayout exEnv 7 exWorld).2.Nvm.MacGroup2 =
      zeros 0 ++ le_encode 1 7 ++ zeros 3 ++ le_encode 4 (Crc32 (le_encode 1 7)) ∧
    restore_region exLayout
      { exWorld with nvm_parts :=
        { exParts with mac2 := some (lrw_set_region exLayout exEnv 7 exWorld).2.Nvm.MacGroup2 } }
      = 7 :=
  ⟨by decide, by decide,
    (set_region_round_trip exLayout exEnv 7 exWorld
      { exWorld with nvm_parts :=
        { exParts with mac2 := some (lrw_set_region exLayout exEnv 7 exWorld).2.Nvm.MacGroup2 } }
      (by decide) (by decide) rfl (by decide) (by decide) (by decide) rfl).2.1,
    (set_region_round_trip exLayout exEnv 7 exWorld
      { exWorld with nvm_parts :=
        { exParts with mac2 := some (lrw_set_region exLayout exEnv 7 exWorld).2.Nvm.MacGroup2 } }
      (by decide) (by decide) rfl (by decide) (by decide) (by decide) rfl).2.2.2.2⟩

/-- Claim C13. After a successful `lrw_set_region` to a new active region,
MacGroup1, RegionGroup1, RegionGroup2 and ClassB are zero bytes throughout,
trailers included; the SecureElement group is unchanged; and the dirty-flag
set is the old set OR-ed with the six flags Crypto, MacGroup1, MacGroup2,
RegionGroup1, RegionGroup2 and ClassB, so that the SecureElement flag keeps its
value. -/
theorem set_region_zeroes_and_marks (L : Layout) (e : Env) (region : Nat) (w : World)
    (hactive : e.RegionIsActive (LoRaMacRegion_of_uint L region) = true)
    (hnew : region ≠ Region L w.Nvm)
    (hdeinit : e.LoRaMacDeInitialization = LORAMAC_STATUS_OK) :
    (lrw_set_region L e region w).1 = LORAMAC_STATUS_OK ∧
    (lrw_set_region L e region w).2.Nvm.MacGroup1 = zeros L.szMacGroup1 ∧
    (lrw_set_region L e region w).2.Nvm.RegionGroup1 = zeros L.szRegionGroup1 ∧
    (lrw_set_region L e region w).2.Nvm.RegionGroup2 = zeros L.szRegionGroup2 ∧
    (lrw_set_region L e region w).2.Nvm.ClassB = zeros L.szClassB ∧
    (lrw_set_region L e region w).2.Nvm.SecureElement = w.Nvm.SecureElement ∧
    (lrw_set_region L e region w).2.nvm_flags =
      w.nvm_flags |||
        (LORAMAC_NVM_NOTIFY_FLAG_CRYPTO ||| LORAMAC_NVM_NOTIFY_FLAG_MAC_GROUP1 |||
          LORAMAC_NVM_NOTIFY_FLAG_MAC_GROUP2 ||| LORAMAC_NVM_NOTIFY_FLAG_REGION_GROUP1 |||
          LORAMAC_NVM_NOTIFY_FLAG_REGION_GROUP2 ||| LORAMAC_NVM_NOTIFY_FLAG_CLASS_B) ∧
    (∀ g : Group, (lrw_set_region L e region w).2.nvm_flags.testBit g.bit =
      (w.nvm_flags.testBit g.bit || decide (g ≠ .SecureElement))) := by
  obtain ⟨hrc, hnvm, hfl⟩ := lrw_set_region_ok L e region w hactive hnew hdeinit
  refine ⟨hrc, by rw [hnvm], by rw [hnvm], by rw [hnvm], by rw [hnvm], by rw [hnvm],
    by rw [hfl, set_region_flags], fun g => ?_⟩
  have t0 : Nat.testBit 0x77 0 = true := by decide
  have t1 : Nat.testBit 0x77 1 = true := by decide
  have t2 : Nat.testBit 0x77 2 = true := by decide
  have t3 : Nat.testBit 0x77 3 = false := by decide
  have t4 : Nat.testBit 0x77 4 = true := by decide
  have t5 : Nat.testBit 0x77 5 = true := by decide
  have t6 : Nat.testBit 0x77 6 = true := by decide
  rw [hfl, Nat.testBit_or]
  cases g <;> simp [Group.bit, t0, t1, t2, t3, t4, t5, t6]

/-- Claim C13 at the example: flags 0x06 become 0x77, the SecureElement flag
stays clear. -/
theorem set_region_zeroes_and_marks_witness :
    exEnv.RegionIsActive (LoRaMacRegion_of_uint exLayout 7) = true ∧
    7 ≠ Region exLayout exWorld.Nvm ∧
    (lrw_set_region exLayout exEnv 7 exWorld).2.Nvm.MacGroup1 = zeros 4 ∧
    (lrw_set_region exLayout exEnv 7 exWorld).2.Nvm.SecureElement =
      [1, 2, 3, 4, 5, 6, 7, 8, 0, 0, 0, 0] ∧
    (lrw_set_region exLayout exEnv 7 exWorld).2.nvm_flags = 0x77 :=
  ⟨by decide, by decide,
    (set_region_zeroes_and_marks exLayout exEnv 7 exWorld (by decide) (by decide) rfl).2.1,
    (set_region_zeroes_and_marks exLayout exEnv 7 exWorld (by decide) (by decide) rfl).2.2.2.2.2.1,
    (set_region_zeroes_and_marks exLayout exEnv 7 exWorld (by decide) (by decide) rfl).2.2.2.2.2.2.1⟩

/-! ## Start-up -/

theorem load_deveui_eq (L : Layout) (w : World) :
    load_deveui L w = { w with dev_eui := loaded_deveui L w.nvm_parts.se } := by
  unfold load_deveui loaded_deveui part_mmap
  cases hse : w.nvm_parts.se with
  | none => simp [hse]
  | some d =>
    by_cases h1 : d.length < L.szSecureElement
    · simp [hse, h1]
    · by_cases h2 : check_block_crc d L.szSecureElement = true
      · simp [hse, h1, h2]
      · by_cases h3 : Crc32 (read_field d L.offDevEui SE_EUI_SIZE) = trailer d L.szSecureElement
        · simp [hse, h1, h2, h3]
        · simp [hse, h1, h2, h3]

theorem dev_eui_sets_append (a b : List Call) :
    dev_eui_sets (a ++ b) = dev_eui_sets a ++ dev_eui_sets b := by
  simp [dev_eui_sets, List.filter_append]

theorem set_defaults_frame (L : Layout) (w : World) :
    (set_defaults L w).nvm_parts = w.nvm_parts ∧
    dev_eui_sets (set_defaults L w).trace = dev_eui_sets w.trace := by
  unfold set_defaults
  cases L.LORAMAC_ABP_VERSION <;> simp [World.call, dev_eui_sets, List.filter_append]

theorem restore_state_frame (L : Layout) (e : Env) (w : World) :
    (restore_state L e w).nvm_parts = w.nvm_parts ∧
    dev_eui_sets (restore_state L e w).trace = dev_eui_sets w.trace := by
  unfold restore_state
  by_cases h : e.ctxs_set_rc = LORAMAC_STATUS_OK <;>
    simp [h, World.call, dev_eui_sets, List.filter_append]

theorem sync_device_class_frame (e : Env) (w : World) :
    (sync_device_class e w).2.nvm_parts = w.nvm_parts ∧
    dev_eui_sets (sync_device_class e w).2.trace = dev_eui_sets w.trace := by
  unfold sync_device_class
  by_cases h1 : e.class_get_rc = LORAMAC_STATUS_OK <;>
    by_cases h2 : e.Class = e.sysconf_device_class <;>
    simp [h1, h2, World.call, dev_eui_sets, List.filter_append]

theorem log_device_info_frame (w : World) :
    dev_eui_sets (log_device_info w).trace = dev_eui_sets w.trace := by
  simp [log_device_info, World.call, dev_eui_sets, List.filter_append]

theorem log_network_info_frame (e : Env) (w : World) :
    dev_eui_sets (log_network_info e w).trace = dev_eui_sets w.trace := by
  unfold log_network_info
  by_cases h : e.NetworkActivation = .ACTIVATION_TYPE_NONE <;>
    simp [h, World.call, dev_eui_sets, List.filter_append]

/-- When the engine initializes, `lrw_init` sets `MIB_DEV_EUI` once: to the
identifier loaded from the SecureElement partition, or, when that is all zero,
to what `system_get_unique_id` makes of it. -/
theorem lrw_init_dev_eui (L : Layout) (e : Env) (w : World)
    (hinit : e.LoRaMacInitialization = LORAMAC_STATUS_OK) :
    dev_eui_sets (lrw_init L e w).trace =
      dev_eui_sets w.trace ++
        [Call.LoRaMacMibSetRequestConfirm (.MIB_DEV_EUI
          (if loaded_deveui L w.nvm_parts.se = zeros SE_EUI_SIZE then
            e.system_get_unique_id (zeros SE_EUI_SIZE)
          else loaded_deveui L w.nvm_parts.se))] := by
  have hd := fun w' => (set_defaults_frame L w').1
  have hr := fun w' => (restore_state_frame L e w').1
  have hs := fun w' => (sync_device_class_frame e w').1
  have hc : ∀ (w' : World) (c : Call), (w'.call c).nvm_parts = w'.nvm_parts := fun _ _ => rfl
  have hcd : ∀ (w' : World) (c : Call), (w'.call c).dev_eui = w'.dev_eui := fun _ _ => rfl
  have hd2 := fun w' => (set_defaults_frame L w').2
  have hr2 := fun w' => (restore_state_frame L e w').2
  have hs2 := fun w' => (sync_device_class_frame e w').2
  have ht : ∀ (w' : World) (c : Call), dev_eui_sets (w'.call c).trace =
      dev_eui_sets w'.trace ++ dev_eui_sets [c] := fun w' c => by
    simp [World.call, dev_eui_sets_append]
  unfold lrw_init
  simp only [hinit, if_true, load_deveui_eq, hd, hr, hs, hc]
  by_cases hz : loaded_deveui L w.nvm_parts.se = zeros SE_EUI_SIZE <;>
    by_cases h1 : e.dev_eui_set_rc = LORAMAC_STATUS_OK <;>
    by_cases h2 : e.DevAddr = 0 <;>
    by_cases h3 : e.dev_addr_set_rc = LORAMAC_STATUS_OK <;>
    simp only [hz, h1, h2, h3, if_true, if_false, ne_eq, not_true_eq_false, not_false_eq_true,
      log_network_info_frame, log_device_info_frame, ht, hs2, hr2, hd2, hcd,
      List.append_assoc] <;>
    simp [dev_eui_sets, hz]

/-- Claim C14. Device identifier fallback in `lrw_init`, once the engine is
initialized. If the SecureElement partition is absent, or smaller than the
SecureElement group, or holds an all-zero `DevEui` under a trailer that is the
`Crc32` of the `DevEui`, or fails both the whole-block and the narrow-field
check, the one `MIB_DEV_EUI` that `lrw_init` sets is the identifier that
`system_get_unique_id` produces. If the partition is large enough, passes
either check and its `DevEui` is not all zero, the one `MIB_DEV_EUI` set is the
stored `DevEui`. -/
theorem deveui_fallback (L : Layout) (e : Env) (w : World)
    (hinit : e.LoRaMacInitialization = LORAMAC_STATUS_OK) :
    ((w.nvm_parts.se = none ∨
      (∃ d, w.nvm_parts.se = some d ∧ d.length < L.szSecureElement) ∨
      (∃ d, w.nvm_parts.se = some d ∧ read_field d L.offDevEui SE_EUI_SIZE = zeros SE_EUI_SIZE ∧
        trailer d L.szSecureElement = Crc32 (read_field d L.offDevEui SE_EUI_SIZE)) ∨
      (∃ d, w.nvm_parts.se = some d ∧ check_block_crc d L.szSecureElement = false ∧
        trailer d L.szSecureElement ≠ Crc32 (read_field d L.offDevEui SE_EUI_SIZE))) →
      dev_eui_sets (lrw_init L e w).trace =
        dev_eui_sets w.trace ++
          [Call.LoRaMacMibSetRequestConfirm
            (.MIB_DEV_EUI (e.system_get_unique_id (zeros SE_EUI_SIZE)))]) ∧
    (∀ d, w.nvm_parts.se = some d → L.szSecureElement ≤ d.length →
      (check_block_crc d L.szSecureElement = true ∨
        trailer d L.szSecureElement = Crc32 (read_field d L.offDevEui SE_EUI_SIZE)) →
      read_field d L.offDevEui SE_EUI_SIZE ≠ zeros SE_EUI_SIZE →
      dev_eui_sets (lrw_init L e w).trace =
        dev_eui_sets w.trace ++
          [Call.LoRaMacMibSetRequestConfirm
            (.MIB_DEV_EUI (read_field d L.offDevEui SE_EUI_SIZE))]) := by
  rw [lrw_init_dev_eui L e w hinit]
  refine ⟨fun h => ?_, fun d hd hsz hchk hnz => ?_⟩
  · have hz : loaded_deveui L w.nvm_parts.se = zeros SE_EUI_SIZE := by
      rcases h with h | ⟨d, hd, hlt⟩ | ⟨d, hd, hzero, _⟩ | ⟨d, hd, hc, ht⟩
      · simp [loaded_deveui, h]
      · simp [loaded_deveui, hd, hlt]
      · rw [hd]
        unfold loaded_deveui
        simp only []
        split_ifs <;> first | rfl | exact hzero
      · have ht' : ¬ Crc32 (read_field d L.offDevEui SE_EUI_SIZE) = trailer d L.szSecureElement :=
          fun h' => ht h'.symm
        rw [hd]
        unfold loaded_deveui
        simp only [hc, Bool.false_eq_true, ht', or_self, if_false]
        split_ifs <;> rfl
    rw [hz]
    simp
  · have hl : loaded_deveui L w.nvm_parts.se = read_field d L.offDevEui SE_EUI_SIZE := by
      have hsz' : ¬ d.length < L.szSecureElement := by omega
      have hchk' : check_block_crc d L.szSecureElement = true ∨
          Crc32 (read_field d L.offDevEui SE_EUI_SIZE) = trailer d L.szSecureElement :=
        hchk.imp id Eq.symm
      rw [hd]
      unfold loaded_deveui
      simp only [hsz', if_false, hchk', if_true]
    rw [hl]
    simp [hnz]

set_option maxRecDepth 100000 in
/-- Claim C14 at the examples: an erased SecureElement partition fails both
checks and yields the hardware identifier; a partition with the identifier
`01 .. 08` under the checksum of the identifier yields that identifier. -/
theorem deveui_fallback_witness :
    exEnv.LoRaMacInitialization = LORAMAC_STATUS_OK ∧
    dev_eui_sets (lrw_init exLayout exEnv exWorld).trace =
      dev_eui_sets exWorld.trace ++
        [Call.LoRaMacMibSetRequestConfirm
          (.MIB_DEV_EUI (exEnv.system_get_unique_id (zeros SE_EUI_SIZE)))] ∧
    dev_eui_sets (lrw_init exLayout exEnv { exWorld with nvm_parts := exPartsDevEui }).trace =
      dev_eui_sets exWorld.trace ++
        [Call.LoRaMacMibSetRequestConfirm (.MIB_DEV_EUI [1, 2, 3, 4, 5, 6, 7, 8])] :=
  ⟨rfl,
    (deveui_fallback exLayout exEnv exWorld rfl).1
      (Or.inr (Or.inr (Or.inr ⟨zeros 12, rfl, by decide, by decide⟩))),
    (deveui_fallback exLayout exEnv { exWorld with nvm_parts := exPartsDevEui } rfl).2
      ([1, 2, 3, 4, 5, 6, 7, 8] ++ le_encode 4 (Crc32 [1, 2, 3, 4, 5, 6, 7, 8])) rfl
      (by decide) (Or.inr (by decide)) (by decide)⟩

/-! ## Uplink -/

/-- On the LengthError path `lrw_send` returns the status of the set of
`MIB_CHANNELS_NB_TRANS`, which has replaced the status of
`LoRaMacQueryTxPossible` in `rc`. -/
theorem lrw_send_length_error_status (L : Layout) (e : Env) (port : Nat)
    (buffer : Option Bytes) (length : Nat) (confirmed : Bool) (w : World)
    (hquery : e.LoRaMacQueryTxPossible length = LORAMAC_STATUS_LENGTH_ERROR) :
    (lrw_send L e port buffer length confirmed w).1 = e.nb_trans_set_rc := by
  unfold lrw_send
  by_cases h : e.nb_trans_set_rc = LORAMAC_STATUS_OK <;> simp [hquery, h]

/-- On the LengthError path the flush uplink carries the data rate 1: the
assignment of 1 to `ChannelsNbTrans` has overwritten the byte of the union from
which `ChannelsDatarate` is read afterwards. -/
theorem lrw_send_flush_datarate (L : Layout) (e : Env) (port : Nat)
    (buffer : Option Bytes) (length : Nat) (confirmed : Bool) (w : World)
    (hquery : e.LoRaMacQueryTxPossible length = LORAMAC_STATUS_LENGTH_ERROR)
    (hset : e.nb_trans_set_rc = LORAMAC_STATUS_OK) :
    (lrw_send L e port buffer length confirmed w).2.trace =
      w.trace ++
        [Call.LoRaMacMibGetRequestConfirm .MIB_CHANNELS_DATARATE,
         Call.LoRaMacQueryTxPossible length,
         Call.LoRaMacMibSetRequestConfirm (.MIB_CHANNELS_NB_TRANS 1),
         Call.LoRaMacMcpsRequest
          { type := .MCPS_UNCONFIRMED, fPort := 0, fBuffer := none, fBufferSize := 0
            Datarate := 1 }] := by
  unfold lrw_send
  simp [hquery, hset, World.call, MibParam_set_ChannelsNbTrans, MibParam_ChannelsNbTrans,
    MibParam_ChannelsDatarate, MibParam_set_ChannelsDatarate, write_field]

/-- Claim C15, a defect of the code: `LoRaMacQueryTxPossible` answers
`LORAMAC_STATUS_LENGTH_ERROR`, the retransmission count is configured and the
flush uplink is submitted, and `lrw_send` returns `LORAMAC_STATUS_OK`, not
`LORAMAC_STATUS_LENGTH_ERROR`. -/
theorem lrw_send_length_error_returns_ok :
    exEnvLengthError.LoRaMacQueryTxPossible 3 = LORAMAC_STATUS_LENGTH_ERROR ∧
    exEnvLengthError.nb_trans_set_rc = LORAMAC_STATUS_OK ∧
    (mcps_requests
      (lrw_send exLayout exEnvLengthError 1 (some [1, 2, 3]) 3 false exWorld).2.trace).length
      = 1 ∧
    (lrw_send exLayout exEnvLengthError 1 (some [1, 2, 3]) 3 false exWorld).1
      = LORAMAC_STATUS_OK ∧
    (lrw_send exLayout exEnvLengthError 1 (some [1, 2, 3]) 3 false exWorld).1
      ≠ LORAMAC_STATUS_LENGTH_ERROR := by
  decide

/-- Claim C16, a defect of the code: the MIB holds the data rate 5, and on the
LengthError path the flush uplink (unconfirmed, port 0, null buffer, length 0,
submitted after the retransmission count was set to 1) carries the data rate
1; the ordinary path of the same call sequence carries the data rate 5. -/
theorem lrw_send_flush_uplink_datarate :
    exEnvLengthError.ChannelsDatarate = 5 ∧
    (lrw_send exLayout exEnvLengthError 1 (some [1, 2, 3]) 3 false exWorld).2.trace =
      [Call.LoRaMacMibGetRequestConfirm .MIB_CHANNELS_DATARATE,
       Call.LoRaMacQueryTxPossible 3,
       Call.LoRaMacMibSetRequestConfirm (.MIB_CHANNELS_NB_TRANS 1),
       Call.LoRaMacMcpsRequest
        { type := .MCPS_UNCONFIRMED, fPort := 0, fBuffer := none, fBufferSize := 0
          Datarate := 1 }] ∧
    (lrw_send exLayout exEnv 1 (some [1, 2, 3]) 3 false exWorld).2.trace =
      [Call.LoRaMacMibGetRequestConfirm .MIB_CHANNELS_DATARATE,
       Call.LoRaMacQueryTxPossible 3,
       Call.LoRaMacMibSetRequestConfirm (.MIB_CHANNELS_NB_TRANS 1),
       Call.LoRaMacMcpsRequest
        { type := .MCPS_UNCONFIRMED, fPort := 1, fBuffer := some [1, 2, 3], fBufferSize := 3
          Datarate := 5 }] := by
  decide

/-! ## Bounded retransmission -/

theorem mlme_requests_join_view (t : List Call) :
    mlme_requests (join_view t) = mlme_requests t := by
  unfold mlme_requests join_view
  rw [List.filter_filter]
  congr 1
  funext c
  cases c <;> simp [join_call]

theorem mlme_requests_append (a b : List Call) :
    mlme_requests (a ++ b) = mlme_requests a ++ mlme_requests b := by
  simp [mlme_requests, List.filter_append]

theorem mlme_requests_rounds (d : Nat → Nat) (n : Nat) :
    mlme_requests ((List.range n).flatMap fun k =>
      [Call.TimerSetValue (d k), Call.TimerStart,
        Call.LoRaMacMlmeRequest (.Join .ACTIVATION_TYPE_OTAA DR_0)]) =
      List.replicate n (Call.LoRaMacMlmeRequest (.Join .ACTIVATION_TYPE_OTAA DR_0)) := by
  induction n with
  | zero => rfl
  | succ n ih =>
    rw [List.range_succ, List.flatMap_append, mlme_requests_append, ih, List.replicate_succ']
    simp [mlme_requests]

/-- A confirm in OTAA mode that does not lead to a retry stops the join: with
`CMD_JOIN_SUCCEEDED` for the status OK, with `CMD_JOIN_FAILED` otherwise. -/
theorem confirm_stop_spec (L : Layout) (e : Env) (status : LoRaMacEventInfoStatus_t)
    (w : World)
    (hmode : e.NetworkActivation ≠ .ACTIVATION_TYPE_ABP)
    (hstop : ¬ (w.joins_left - 1 > 0 ∧ status = .LORAMAC_EVENT_INFO_STATUS_RX2_TIMEOUT)) :
    (mlme_confirm L e (join_confirm status) w).joins_left = 0 ∧
    join_view (mlme_confirm L e (join_confirm status) w).trace =
      join_view w.trace ++
        [Call.TimerStop,
          Call.cmd_event .CMD_EVENT_JOIN
            (if status = .LORAMAC_EVENT_INFO_STATUS_OK then .CMD_JOIN_SUCCEEDED
              else .CMD_JOIN_FAILED),
          Call.sync_device_class] := by
  have h1 : mlme_confirm L e (join_confirm status) w =
      stop_join L e
        (if status = .LORAMAC_EVENT_INFO_STATUS_OK then .CMD_JOIN_SUCCEEDED
          else .CMD_JOIN_FAILED)
        { ({ w with tx_params_Status := status }).call
            (.LoRaMacMibGetRequestConfirm .MIB_NETWORK_ACTIVATION) with
          joins_left := w.joins_left - 1 } := by
    simp only [mlme_confirm, join_confirm, join_callback, join_callback_otaa, hmode, if_false]
    exact if_neg hstop
  rw [h1]
  refine ⟨(stop_join_spec _ _ _ _).1, ?_⟩
  rw [(stop_join_spec _ _ _ _).2]
  simp [World.call, join_view, List.filter_append, join_call]

/-- A confirm with status RX2-timeout in OTAA mode with an attempt left arms
the retry timer. -/
theorem confirm_retry_spec (L : Layout) (e : Env) (w : World)
    (hmode : e.NetworkActivation ≠ .ACTIVATION_TYPE_ABP)
    (hleft : 1 < w.joins_left) :
    (mlme_confirm L e (join_confirm .LORAMAC_EVENT_INFO_STATUS_RX2_TIMEOUT) w).joins_left =
      w.joins_left - 1 ∧
    join_view (mlme_confirm L e (join_confirm .LORAMAC_EVENT_INFO_STATUS_RX2_TIMEOUT) w).trace =
      join_view w.trace ++
        [Call.TimerSetValue (e.randr 100 500 % 2 ^ 32), Call.TimerStart] := by
  have hl : w.joins_left - 1 > 0 := by omega
  simp [mlme_confirm, join_confirm, join_callback, join_callback_otaa, hmode, hl, World.call,
    join_view, List.filter_append, join_call]

/-- A confirm in ABP mode reapplies the device class and leaves the session as
it is. -/
theorem confirm_abp_spec (L : Layout) (e : Env) (status : LoRaMacEventInfoStatus_t)
    (w : World) (habp : e.NetworkActivation = .ACTIVATION_TYPE_ABP) :
    (mlme_confirm L e (join_confirm status) w).joins_left = w.joins_left ∧
    join_view (mlme_confirm L e (join_confirm status) w).trace =
      join_view w.trace ++ [Call.sync_device_class] := by
  have hs1 := fun w' => (sync_device_class_spec e w').1
  have hs2 := fun w' => (sync_device_class_spec e w').2
  simp only [mlme_confirm, join_confirm, join_callback, join_callback_abp, habp, if_true]
  cases L.LORAMAC_ABP_VERSION with
  | none =>
    simp only [hs1, hs2]
    simp [World.call, join_view, List.filter_append, join_call]
  | some v =>
    by_cases h : status = .LORAMAC_EVENT_INFO_STATUS_OK <;>
      simp only [h, if_true, if_false, hs1, hs2] <;>
      simp [set_abp_mac_version, World.call, join_view, List.filter_append, join_call]

/-- The tick of `lrw_process` after the expiry of the retry timer submits the
join request again; when the engine rejects it, the join is stopped with
`CMD_JOIN_FAILED`. -/
theorem process_retransmit_spec (L : Layout) (e : Env) (w : World) :
    (lrw_process L e [] (on_join_timer L w)).joins_left =
      (if e.LoRaMacMlmeRequest = LORAMAC_STATUS_OK then w.joins_left else 0) ∧
    join_view (lrw_process L e [] (on_join_timer L w)).trace =
      join_view w.trace ++
        Call.LoRaMacMlmeRequest (.Join .ACTIVATION_TYPE_OTAA DR_0) ::
          (if e.LoRaMacMlmeRequest = LORAMAC_STATUS_OK then []
            else [Call.TimerStop, Call.cmd_event .CMD_EVENT_JOIN .CMD_JOIN_FAILED,
              Call.sync_device_class]) := by
  have hev := or_retransmit_join w.events
  have hv : ∀ (w' : World) (c : Call), join_view (w'.call c).trace =
      join_view w'.trace ++ join_view [c] := fun w' c => by
    simp [World.call, join_view, List.filter_append]
  have hj : ∀ (w' : World) (c : Call), (w'.call c).joins_left = w'.joins_left := fun _ _ => rfl
  have hs1 := fun st w' => (stop_join_spec L e st w').1
  have hs2 := fun st w' => (stop_join_spec L e st w').2
  unfold lrw_process
  simp only [save_state_joins_left, save_state_join_view, List.foldl_nil]
  by_cases hacc : e.LoRaMacMlmeRequest = LORAMAC_STATUS_OK
  · simp only [on_join_timer, retransmit_join, send_join, hacc, hev, if_true, ne_eq,
      not_true_eq_false, not_false_eq_true, if_false]
    cases L.Radio_IrqProcess <;> simp [hv, hj, World.call, join_view, join_call]
  · simp only [on_join_timer, retransmit_join, send_join, hacc, hev, if_true, ne_eq,
      not_false_eq_true, if_false]
    cases L.Radio_IrqProcess <;>
      simp only [if_true, if_false, hv, hj, hs1, hs2, Bool.false_eq_true] <;>
      simp [World.call, join_view, List.filter_append, join_call]

theorem mlme_requests_of_view {t t' l : List Call} (h : join_view t' = join_view t ++ l) :
    mlme_requests t' = mlme_requests t ++ mlme_requests l := by
  rw [← mlme_requests_join_view t', h, mlme_requests_append, mlme_requests_join_view]

theorem timer_arms_of_view {t t' l : List Call} (h : join_view t' = join_view t ++ l) :
    timer_arms t' = timer_arms t + timer_arms l := by
  rw [← timer_arms_join_view t', h, timer_arms_append, timer_arms_join_view]

theorem join_notifications_of_view {t t' l : List Call}
    (h : join_view t' = join_view t ++ l) :
    join_notifications t' = join_notifications t ++ join_notifications l := by
  rw [← join_notifications_join_view t', h, join_notifications_append,
    join_notifications_join_view]

/-- A confirm, with the retransmission it may trigger, does not increase the
number of join requests submitted plus the number of retries still allowed. -/
theorem confirm_round_bound (L : Layout) (ev : LoRaMacEventInfoStatus_t × Env × Env)
    (w : World) :
    (mlme_requests (confirm_round L ev w).trace).length +
        ((confirm_round L ev w).joins_left - 1).toNat ≤
      (mlme_requests w.trace).length + (w.joins_left - 1).toNat := by
  obtain ⟨status, ec, ep⟩ := ev
  unfold confirm_round
  simp only []
  by_cases habp : ec.NetworkActivation = .ACTIVATION_TYPE_ABP
  · obtain ⟨hj, hv⟩ := confirm_abp_spec L ec status w habp
    have ha := timer_arms_of_view hv
    have hm := mlme_requests_of_view hv
    have ha' : ¬ timer_arms w.trace <
        timer_arms (mlme_confirm L ec (join_confirm status) w).trace := by
      rw [ha]; simp [timer_arms]
    rw [if_neg ha', hj, hm]
    simp [mlme_requests]
  · by_cases hretry : w.joins_left - 1 > 0 ∧ status = .LORAMAC_EVENT_INFO_STATUS_RX2_TIMEOUT
    · obtain ⟨hleft, rfl⟩ := hretry
      obtain ⟨hj, hv⟩ := confirm_retry_spec L ec w habp (by omega)
      have ha := timer_arms_of_view hv
      have hm := mlme_requests_of_view hv
      have ha' : timer_arms w.trace < timer_arms (mlme_confirm L ec
          (join_confirm .LORAMAC_EVENT_INFO_STATUS_RX2_TIMEOUT) w).trace := by
        rw [ha]; simp [timer_arms]
      obtain ⟨hpj, hpv⟩ := process_retransmit_spec L ep
        (mlme_confirm L ec (join_confirm .LORAMAC_EVENT_INFO_STATUS_RX2_TIMEOUT) w)
      have hpm := mlme_requests_of_view hpv
      rw [if_pos ha', hpj, hpm, hm, hj]
      by_cases hacc : ep.LoRaMacMlmeRequest = LORAMAC_STATUS_OK
      · simp only [hacc, if_true, List.length_append]
        simp [mlme_requests]
        omega
      · simp only [hacc, if_false, List.length_append]
        simp [mlme_requests]
        omega
    · obtain ⟨hj, hv⟩ := confirm_stop_spec L ec status w habp hretry
      have ha := timer_arms_of_view hv
      have hm := mlme_requests_of_view hv
      have ha' : ¬ timer_arms w.trace <
          timer_arms (mlme_confirm L ec (join_confirm status) w).trace := by
        rw [ha]; simp [timer_arms]
      rw [if_neg ha', hj, hm]
      simp [mlme_requests]

theorem confirm_rounds_bound (L : Layout) (evs : List (LoRaMacEventInfoStatus_t × Env × Env))
    (w : World) :
    (mlme_requests (confirm_rounds L evs w).trace).length +
        ((confirm_rounds L evs w).joins_left - 1).toNat ≤
      (mlme_requests w.trace).length + (w.joins_left - 1).toNat := by
  induction evs generalizing w with
  | nil => simp [confirm_rounds]
  | cons ev evs ih =>
    have h1 := ih (confirm_round L ev w)
    have h2 := confirm_round_bound L ev w
    simp only [confirm_rounds, List.foldl_cons] at h1 ⊢
    omega

/-- Claim C18. Bounded retransmission. For `0 <= r <= 15`, from idle in OTAA
mode and with every join submission accepted: `lrw_join(r)` followed by `r + 1`
confirms with status RX2-timeout, with the expiry of the retry timer and the
retransmission in `lrw_process` in between, submits exactly `r + 1` join
requests, arms the retry timer exactly `r` times, emits no join notification
before the last confirm and exactly one, `CMD_JOIN_FAILED`, on it, and ends
with `joins_left == 0`. And for every sequence of confirms, of any status and
in any environment, at most `r + 1` join requests are submitted. -/
theorem otaa_join_bounded_retransmission (L : Layout) (e0 : Env) (ec ep : Nat → Env)
    (eN : Env) (r : Nat) (w : World) (evs : List (LoRaMacEventInfoStatus_t × Env × Env))
    (hr : r ≤ 15) (hidle : w.joins_left = 0)
    (hmode0 : e0.NetworkActivation ≠ .ACTIVATION_TYPE_ABP)
    (hacc0 : e0.LoRaMacMlmeRequest = LORAMAC_STATUS_OK)
    (hmode : ∀ k, (ec k).NetworkActivation ≠ .ACTIVATION_TYPE_ABP)
    (hacc : ∀ k, (ep k).LoRaMacMlmeRequest = LORAMAC_STATUS_OK)
    (hmodeN : eN.NetworkActivation ≠ .ACTIVATION_TYPE_ABP) :
    (lrw_join L e0 r w).1 = LORAMAC_STATUS_OK ∧
    mlme_requests (join_then_failure L e0 ec ep eN r w).trace =
      mlme_requests w.trace ++
        List.replicate (r + 1) (Call.LoRaMacMlmeRequest (.Join .ACTIVATION_TYPE_OTAA DR_0)) ∧
    timer_arms (join_then_failure L e0 ec ep eN r w).trace = timer_arms w.trace + r ∧
    join_notifications (timeout_rounds L ec ep r (lrw_join L e0 r w).2).trace =
      join_notifications w.trace ∧
    join_notifications (join_then_failure L e0 ec ep eN r w).trace =
      join_notifications w.trace ++ [Call.cmd_event .CMD_EVENT_JOIN .CMD_JOIN_FAILED] ∧
    (join_then_failure L e0 ec ep eN r w).joins_left = 0 ∧
    (mlme_requests (confirm_rounds L evs (lrw_join L e0 r w).2).trace).length ≤
      (mlme_requests w.trace).length + (r + 1) := by
  obtain ⟨hj1, hj2, hj3⟩ := lrw_join_otaa_spec L e0 r w hr hidle hmode0
  obtain ⟨hr2, hr3⟩ := timeout_rounds_spec L ec ep (lrw_join L e0 r w).2 hmode hacc r
    (by rw [hj2]; omega)
  have hlast : ¬ ((timeout_rounds L ec ep r (lrw_join L e0 r w).2).joins_left - 1 > 0 ∧
      LoRaMacEventInfoStatus_t.LORAMAC_EVENT_INFO_STATUS_RX2_TIMEOUT =
        .LORAMAC_EVENT_INFO_STATUS_RX2_TIMEOUT) := by
    rw [hr2, hj2]
    omega
  obtain ⟨hc1, hc2⟩ := confirm_stop_spec L eN .LORAMAC_EVENT_INFO_STATUS_RX2_TIMEOUT
    (timeout_rounds L ec ep r (lrw_join L e0 r w).2) hmodeN hlast
  have hrounds : join_view (timeout_rounds L ec ep r (lrw_join L e0 r w).2).trace =
      join_view w.trace ++
        ([Call.LoRaMacMlmeRequest (.Join .ACTIVATION_TYPE_OTAA DR_0)] ++
          (List.range r).flatMap fun k =>
            [Call.TimerSetValue ((ec k).randr 100 500 % 2 ^ 32), Call.TimerStart,
              Call.LoRaMacMlmeRequest (.Join .ACTIVATION_TYPE_OTAA DR_0)]) := by
    rw [hr3, hj3, List.append_assoc]
  have hview : join_view (join_then_failure L e0 ec ep eN r w).trace =
      join_view w.trace ++
        ([Call.LoRaMacMlmeRequest (.Join .ACTIVATION_TYPE_OTAA DR_0)] ++
          ((List.range r).flatMap fun k =>
            [Call.TimerSetValue ((ec k).randr 100 500 % 2 ^ 32), Call.TimerStart,
              Call.LoRaMacMlmeRequest (.Join .ACTIVATION_TYPE_OTAA DR_0)]) ++
          [Call.TimerStop, Call.cmd_event .CMD_EVENT_JOIN .CMD_JOIN_FAILED,
            Call.sync_device_class]) := by
    unfold join_then_failure
    rw [hc2, hrounds]
    simp
  refine ⟨hj1.trans hacc0, ?_, ?_, ?_, ?_, hc1, ?_⟩
  · rw [mlme_requests_of_view hview, mlme_requests_append, mlme_requests_append,
      mlme_requests_rounds, List.replicate_succ]
    simp [mlme_requests]
  · rw [timer_arms_of_view hview, timer_arms_append, timer_arms_append, timer_arms_rounds]
    simp [timer_arms]
  · rw [join_notifications_of_view hrounds, join_notifications_append,
      join_notifications_rounds]
    simp [join_notifications]
  · rw [join_notifications_of_view hview, join_notifications_append,
      join_notifications_append, join_notifications_rounds]
    simp [join_notifications]
  · have hb := confirm_rounds_bound L evs (lrw_join L e0 r w).2
    have hm := mlme_requests_of_view hj3
    have h1 : (mlme_requests
        [Call.LoRaMacMlmeRequest (.Join .ACTIVATION_TYPE_OTAA DR_0)]).length = 1 := rfl
    rw [hj2, hm, List.length_append, h1] at hb
    omega

/-- Claim C18 at the example, `r = 3`: four join requests, three retries, one
`CMD_JOIN_FAILED`. -/
theorem otaa_join_bounded_retransmission_witness :
    (3 : Nat) ≤ 15 ∧ exWorld.joins_left = 0 ∧
    mlme_requests (join_then_failure exLayout exEnv (fun _ => exEnv) (fun _ => exEnv) exEnv 3
      exWorld).trace =
      mlme_requests exWorld.trace ++
        List.replicate (3 + 1)
          (Call.LoRaMacMlmeRequest (.Join .ACTIVATION_TYPE_OTAA DR_0)) ∧
    timer_arms (join_then_failure exLayout exEnv (fun _ => exEnv) (fun _ => exEnv) exEnv 3
      exWorld).trace = timer_arms exWorld.trace + 3 ∧
    (mlme_requests (confirm_rounds exLayout
      [(.LORAMAC_EVENT_INFO_STATUS_RX2_TIMEOUT, exEnv, exEnvJoinRejected),
       (.LORAMAC_EVENT_INFO_STATUS_OK, exEnv, exEnv)]
      (lrw_join exLayout exEnv 3 exWorld).2).trace).length ≤
      (mlme_requests exWorld.trace).length + (3 + 1) :=
  ⟨by decide, rfl,
    (otaa_join_bounded_retransmission exLayout exEnv (fun _ => exEnv) (fun _ => exEnv) exEnv 3
      exWorld
      [(.LORAMAC_EVENT_INFO_STATUS_RX2_TIMEOUT, exEnv, exEnvJoinRejected),
       (.LORAMAC_EVENT_INFO_STATUS_OK, exEnv, exEnv)]
      (by decide) rfl (by decide) rfl
      (fun _ => show exEnv.NetworkActivation ≠ .ACTIVATION_TYPE_ABP by decide) (fun _ => rfl)
      (by decide)).2.1,
    (otaa_join_bounded_retransmission exLayout exEnv (fun _ => exEnv) (fun _ => exEnv) exEnv 3
      exWorld
      [(.LORAMAC_EVENT_INFO_STATUS_RX2_TIMEOUT, exEnv, exEnvJoinRejected),
       (.LORAMAC_EVENT_INFO_STATUS_OK, exEnv, exEnv)]
      (by decide) rfl (by decide) rfl
      (fun _ => show exEnv.NetworkActivation ≠ .ACTIVATION_TYPE_ABP by decide) (fun _ => rfl)
      (by decide)).2.2.1,
    (otaa_join_bounded_retransmission exLayout exEnv (fun _ => exEnv) (fun _ => exEnv) exEnv 3
      exWorld
      [(.LORAMAC_EVENT_INFO_STATUS_RX2_TIMEOUT, exEnv, exEnvJoinRejected),
       (.LORAMAC_EVENT_INFO_STATUS_OK, exEnv, exEnv)]
      (by decide) rfl (by decide) rfl
      (fun _ => show exEnv.NetworkActivation ≠ .ACTIVATION_TYPE_ABP by decide) (fun _ => rfl)
      (by decide)).2.2.2.2.2.2⟩

/-! ## The join session after a rejected submission -/

/-- When the engine rejects the first join request of an OTAA join, `lrw_join`
returns the engine's status and leaves `joins_left` at `retries + 1`, and every
later `lrw_join` returns `LORAMAC_STATUS_BUSY`. -/
theorem lrw_join_rejected (L : Layout) (e e2 : Env) (r r2 : Nat) (w : World)
    (hr : r ≤ 15) (hidle : w.joins_left = 0)
    (hmode : e.NetworkActivation ≠ .ACTIVATION_TYPE_ABP) :
    (lrw_join L e r w).1 = e.LoRaMacMlmeRequest ∧
    (lrw_join L e r w).2.joins_left = (r : Int) + 1 ∧
    (lrw_join L e2 r2 (lrw_join L e r w).2).1 = LORAMAC_STATUS_BUSY := by
  obtain ⟨h1, h2, _⟩ := lrw_join_otaa_spec L e r w hr hidle hmode
  refine ⟨h1, h2, ?_⟩
  have hne : (lrw_join L e r w).2.joins_left ≠ 0 := by rw [h2]; omega
  have key : ∀ w' : World, w'.joins_left ≠ 0 → (lrw_join L e2 r2 w').1 = LORAMAC_STATUS_BUSY :=
    fun w' h => by simp [lrw_join, h]
  exact key _ hne

/-- Claim C19, a defect of the code: from idle in OTAA mode the engine rejects
the join request of `lrw_join(0)` with `LORAMAC_STATUS_DUTYCYCLE_RESTRICTED`;
`lrw_join` returns that status, which is neither OK nor Busy, with
`joins_left == 1`, and the next `lrw_join`, which the engine would accept, is
rejected with `LORAMAC_STATUS_BUSY`. The sibling `retransmit_join` stops the
join in the same situation. -/
theorem rejected_join_blocks_session :
    exWorld.joins_left = 0 ∧
    (lrw_join exLayout exEnvJoinRejected 0 exWorld).1 = LORAMAC_STATUS_DUTYCYCLE_RESTRICTED ∧
    (lrw_join exLayout exEnvJoinRejected 0 exWorld).1 ≠ LORAMAC_STATUS_OK ∧
    (lrw_join exLayout exEnvJoinRejected 0 exWorld).1 ≠ LORAMAC_STATUS_BUSY ∧
    (lrw_join exLayout exEnvJoinRejected 0 exWorld).2.joins_left = 1 ∧
    (lrw_join exLayout exEnv 0 (lrw_join exLayout exEnvJoinRejected 0 exWorld).2).1
      = LORAMAC_STATUS_BUSY ∧
    (retransmit_join exLayout exEnvJoinRejected (exJoining 1)).joins_left = 0 := by
  decide

/-! ## An interrupt during `save_state` -/

end Lrw
